import Mathlib

/-!
Shallow embedding of the rjvm class-file decoder (libjvm/src/classfile/mod.rs)
and bytecode interpreter (libjvm/src/vm/thread.rs, stack.rs, types/mod.rs),
with theorems checking the natural-language specification against the code.

Modelling conventions:
* A byte stream (`&mut impl Read` in the source) is a `List Nat` of byte
  values, consumed front to back; parsing is explicit state passing.
* A fallible parse returns `PRes`: `ok value rest`, a typed error `err e`
  (the source's `Err(ClassFileParseError)`), or `panik`, which models every
  Rust panic (`panic!`, `todo!`, a failed `assert_eq!`, an out-of-bounds
  `Vec` index, and unsigned-integer underflow, which aborts in the debug
  builds the repository's tests run under).
* Machine integers are `Nat`/`Int`; wraparound is explicit (`% 2^w`).
* `Vec` push/last/pop act on the end of the vector; we model the stack of
  values and the stack of frames as Lean lists whose HEAD is that end
  (the most recently pushed element).
* The recursive attribute / annotation grammars take an explicit fuel
  argument; exhausted fuel yields `panik`.  The Rust recursion is unbounded,
  so every statement quantifies over the fuel or supplies enough of it.
* `f32`/`f64` payloads of `NativeValue` are carried as raw bit patterns
  (`Nat`); no claim computes with floating point.
-/

namespace Rjvm

/-- The error enum `ClassFileParseError` of the source. -/
inductive ClassFileParseError where
  | InvalidTypePathKind
  | InvalidTypeAnnotationTargetType
  | InvalidElementValueTag
  | InvalidAttributeNameIndex
  | InvalidMagicValue
  | InvalidConstantPoolInfoTag
  | InvalidVerificationTypeTag
  | InvalidReferenceKind
  | UnexpectedEOF
  deriving DecidableEq, Repr

/-- Result of running a parser on a byte stream: success with the remaining
stream, a typed parse error, or a Rust panic. -/
inductive PRes (α : Type) where
  | ok (value : α) (rest : List Nat)
  | err (e : ClassFileParseError)
  | panik
  deriving Repr

/-- A parser over a byte stream, the explicit-state form of a function
taking `&mut impl Read`. -/
def Parser (α : Type) : Type := List Nat → PRes α

def ppure {α : Type} (a : α) : Parser α := fun s => .ok a s

def pfail {α : Type} (e : ClassFileParseError) : Parser α := fun _ => .err e

/-- Models a Rust panic (`panic!`, `todo!`, failed assert, index/underflow abort). -/
def ppanik {α : Type} : Parser α := fun _ => .panik

def pbind {α β : Type} (p : Parser α) (f : α → Parser β) : Parser β := fun s =>
  match p s with
  | .ok a r => f a r
  | .err e => .err e
  | .panik => .panik

/-- Models `read_bytes!` / `read_exact` into a buffer of `n` bytes: reads
exactly `n` bytes or fails with `UnexpectedEOF`. -/
def readBytes (n : Nat) : Parser (List Nat) := fun s =>
  if n ≤ s.length then .ok (s.take n) (s.drop n) else .err .UnexpectedEOF

/-- Big-endian value of a byte list (`uN::from_be_bytes`). -/
def beVal (l : List Nat) : Nat := l.foldl (fun acc b => acc * 256 + b) 0

/-- Models `read_u8!`. -/
def readU8 : Parser Nat := pbind (readBytes 1) (fun bs => ppure (beVal bs))

/-- Models `read_u16!`. -/
def readU16 : Parser Nat := pbind (readBytes 2) (fun bs => ppure (beVal bs))

/-- Models `read_u32!`. -/
def readU32 : Parser Nat := pbind (readBytes 4) (fun bs => ppure (beVal bs))

/-- Runs `p` exactly `n` times, collecting the results in order: the shape of
every `for _ in 0..count { v.push(parse?) }` loop in the source. -/
def replicateP {α : Type} (p : Parser α) : Nat → Parser (List α)
  | 0 => ppure []
  | n + 1 => pbind p (fun a => pbind (replicateP p n) (fun l => ppure (a :: l)))

/-- Byte values of a literal attribute-name string (the source compares
`bytes.as_slice()` against `b"..."` literals). -/
def strBytes (s : String) : List Nat := s.data.map (fun c => c.toNat)

/-!
Access-flag bitsets.  Each flag type is a `u16` newtype; `from_bits_truncate`
keeps only the defined bits.  The libjvm copy of the flags module is not under
the checked-out sources, but the repository's libjava crate declares the
identical bitflags tables (src/libjava/src/classfile/flags.rs), whose bit
unions these masks reproduce.
-/

def ClassAccessFlags.from_bits_truncate (bits : Nat) : Nat := bits &&& 0xF631

def FieldAccessFlags.from_bits_truncate (bits : Nat) : Nat := bits &&& 0x50DF

def MethodAccessFlags.from_bits_truncate (bits : Nat) : Nat := bits &&& 0x1DFF

def InnerClassAccessFlags.from_bits_truncate (bits : Nat) : Nat := bits &&& 0x761F

def MethodParameterAccessFlags.from_bits_truncate (bits : Nat) : Nat := bits &&& 0x9010

def ModuleFlags.from_bits_truncate (bits : Nat) : Nat := bits &&& 0x9020

def RequiresFlags.from_bits_truncate (bits : Nat) : Nat := bits &&& 0x9060

def ExportsFlags.from_bits_truncate (bits : Nat) : Nat := bits &&& 0x9000

def OpensFlags.from_bits_truncate (bits : Nat) : Nat := bits &&& 0x9000

/-- The 17-variant constant-pool entry (`ConstantPoolInfo`); `u16` fields are
`Nat`, `MethodHandleInfo`'s checked `ReferenceKind` is its `Nat` discriminant
(1–9), UTF-8 payloads are raw byte lists. -/
inductive ConstantPoolInfo where
  | ClassInfo (name_index : Nat)
  | FieldrefInfo (class_index name_and_type_index : Nat)
  | MethodrefInfo (class_index name_and_type_index : Nat)
  | InterfaceMethodrefInfo (class_index name_and_type_index : Nat)
  | StringInfo (string_index : Nat)
  | IntegerInfo (bytes : Nat)
  | FloatInfo (bytes : Nat)
  | LongInfo (high_bytes low_bytes : Nat)
  | DoubleInfo (high_bytes low_bytes : Nat)
  | NameAndTypeInfo (name_index descriptor_index : Nat)
  | Utf8Info (length : Nat) (bytes : List Nat)
  | MethodHandleInfo (reference_kind : Nat) (reference_index : Nat)
  | MethodTypeInfo (descriptor_index : Nat)
  | DynamicInfo (bootstrap_method_attr_index name_and_type_index : Nat)
  | InvokeDynamicInfo (bootstrap_method_attr_index name_and_type_index : Nat)
  | ModuleInfo (name_index : Nat)
  | PackageInfo (name_index : Nat)
  deriving Repr

/-- The constant pool: the plain vector of parsed entries. -/
structure ConstantPool where
  items : List ConstantPoolInfo
  deriving Repr

/-- The `Index<usize>` impl: direct 0-based vector indexing; `none` models the
out-of-bounds panic (there is no error-returning variant in the source). -/
def ConstantPool.indexUsize (cp : ConstantPool) (index : Nat) : Option ConstantPoolInfo :=
  cp.items.get? index

/-- The `Index<u16>` impl: `self[index as usize]`. -/
def ConstantPool.indexU16 (cp : ConstantPool) (index : Nat) : Option ConstantPoolInfo :=
  cp.indexUsize index

/-- The `Index<i32>` impl: `self[index as usize]`, with Rust's `as usize`
wrapping conversion from `i32` to the 64-bit `usize`. -/
def ConstantPool.indexI32 (cp : ConstantPool) (index : Int) : Option ConstantPoolInfo :=
  cp.indexUsize ((index % (2 ^ 64 : Int)).toNat)

structure ExceptionTableEntry where
  start_pc : Nat
  end_pc : Nat
  handler_pc : Nat
  catch_type : Nat
  deriving Repr

/-- An entry of a `StackMapTable`; tags 7 and 8 carry an extra field. -/
inductive VerificationTypeInfo where
  | TopVariable (tag : Nat)
  | IntegerVariable (tag : Nat)
  | FloatVariable (tag : Nat)
  | NullVariable (tag : Nat)
  | UninitializedThisVariable (tag : Nat)
  | ObjectVariable (tag : Nat) (cpool_index : Nat)
  | UninitializedVariable (tag : Nat) (offset : Nat)
  | LongVariable (tag : Nat)
  | DoubleVariable (tag : Nat)
  deriving Repr

/-- The frame-type-byte–discriminated `StackMapFrame` union. -/
inductive StackMapFrame where
  | Same (frame_type : Nat)
  | SameLocals1StackItem (frame_type : Nat) (stack : VerificationTypeInfo)
  | SameLocals1StackItemExtended (frame_type : Nat) (offset_delta : Nat)
      (stack : VerificationTypeInfo)
  | Chop (frame_type : Nat) (offset_delta : Nat)
  | SameExtended (frame_type : Nat) (offset_delta : Nat)
  | Append (frame_type : Nat) (offset_delta : Nat) (locals : List VerificationTypeInfo)
  | Full (frame_type : Nat) (offset_delta : Nat)
      (locals : List VerificationTypeInfo) (stack : List VerificationTypeInfo)
  deriving Repr

structure InnerClass where
  inner_class_info_index : Nat
  outer_class_info_index : Nat
  inner_name_index : Nat
  inner_class_access_flags : Nat
  deriving Repr

structure LineNumberTableEntry where
  start_pc : Nat
  line_number : Nat
  deriving Repr

structure LocalVariableTableEntry where
  start_pc : Nat
  length : Nat
  name_index : Nat
  descriptor_index : Nat
  index : Nat
  deriving Repr

structure LocalVariableTypeTableEntry where
  start_pc : Nat
  length : Nat
  name_index : Nat
  signature_index : Nat
  index : Nat
  deriving Repr

mutual

/-- The source's `Annotation` record (name shortened for the development). -/
inductive Annot where
  | mk (type_index : Nat) (element_value_pairs : List ElementValuePair)

inductive ElementValuePair where
  | mk (element_name_index : Nat) (value : ElementValue)

/-- The recursive `element_value` union, keyed by an ASCII tag character. -/
inductive ElementValue where
  | ConstValueIndex (idx : Nat)
  | EnumConstValue (type_name_index const_name_index : Nat)
  | ClassInfoIndex (idx : Nat)
  | AnnotationValue (a : Annot)
  | ArrayValue (values : List ElementValue)

end

structure LocalVarTargetTableEntry where
  start_pc : Nat
  length : Nat
  index : Nat
  deriving Repr

/-- `target_info` of a type annotation, selected by the `target_type` byte. -/
inductive TargetInfo where
  | TypeParameter (type_parameter_index : Nat)
  | Supertype (supertype_index : Nat)
  | TypeParameterBound (type_parameter_index bound_index : Nat)
  | Empty
  | FormalParameter (formal_parameter_index : Nat)
  | Throws (throws_type_index : Nat)
  | Localvar (table : List LocalVarTargetTableEntry)
  | Catch (exception_table_index : Nat)
  | Offset (offset : Nat)
  | TypeArgument (offset : Nat) (type_argument_index : Nat)
  deriving Repr

/-- The checked `TypePathKind` enum: discriminants 0–3. -/
inductive TypePathKind where
  | DeepArray
  | DeepNested
  | WildcardTypeArgument
  | TypeArgument
  deriving Repr

structure Path where
  type_path_kind : TypePathKind
  type_path_argument_index : Nat
  deriving Repr

structure TypePath where
  path : List Path
  deriving Repr

/-- The source's `TypeAnnotation` record (name shortened for the development). -/
structure TypeAnnot where
  target_path : TypePath
  target_info : TargetInfo
  type_index : Nat
  element_value_pairs : List ElementValuePair

structure BootstrapMethod where
  bootstrap_method_ref : Nat
  bootstrap_arguments : List Nat
  deriving Repr

structure MethodParameter where
  name_index : Nat
  access_flags : Nat
  deriving Repr

structure ModuleRequires where
  requires_index : Nat
  requires_flags : Nat
  requires_version_index : Nat
  deriving Repr

structure ModuleExports where
  exports_index : Nat
  exports_flags : Nat
  exports_to_index : List Nat
  deriving Repr

structure ModuleOpens where
  opens_index : Nat
  opens_flags : Nat
  opens_to_index : List Nat
  deriving Repr

structure ModuleProvides where
  provides_index : Nat
  provides_with_index : List Nat
  deriving Repr

mutual

/-- The ~30-shape attribute union (`AttributeInfo`). -/
inductive AttributeInfo where
  | ConstantValue (attribute_name_index attribute_length constantvalue_index : Nat)
  | Code (attribute_name_index attribute_length max_stack max_locals code_length : Nat)
      (code : List Nat) (exception_table : List ExceptionTableEntry)
      (attributes : List AttributeInfo)
  | StackMapTable (attribute_name_index attribute_length : Nat)
      (entries : List StackMapFrame)
  | Exceptions (attribute_name_index attribute_length : Nat)
      (exception_index_table : List Nat)
  | InnerClasses (attribute_name_index attribute_length : Nat)
      (classes : List InnerClass)
  | EnclosingMethod (attribute_name_index attribute_length class_index method_index : Nat)
  | Synthetic (attribute_name_index attribute_length : Nat)
  | Signature (attribute_name_index attribute_length signature_index : Nat)
  | SourceFile (attribute_name_index attribute_length sourcefile_index : Nat)
  | SourceDebugExtension (attribute_name_index attribute_length : Nat)
      (debug_extension : List Nat)
  | LineNumberTable (attribute_name_index attribute_length : Nat)
      (line_number_table : List LineNumberTableEntry)
  | LocalVariableTable (attribute_name_index attribute_length : Nat)
      (local_variable_table : List LocalVariableTableEntry)
  | LocalVariableTypeTable (attribute_name_index attribute_length : Nat)
      (local_variable_type_table : List LocalVariableTypeTableEntry)
  | Deprecated (attribute_name_index attribute_length : Nat)
  | RuntimeVisibleAnnotations (attribute_name_index attribute_length : Nat)
      (annotations : List Annot)
  | RuntimeInvisibleAnnotations (attribute_name_index attribute_length : Nat)
      (annotations : List Annot)
  | RuntimeVisibleParameterAnnotations (attribute_name_index attribute_length : Nat)
      (parameter_annotations : List (List Annot))
  | RuntimeInvisibleParameterAnnotations (attribute_name_index attribute_length : Nat)
      (parameter_annotations : List (List Annot))
  | RuntimeVisibleTypeAnnotations (attribute_name_index attribute_length : Nat)
      (annotations : List TypeAnnot)
  | RuntimeInvisibleTypeAnnotations (attribute_name_index attribute_length : Nat)
      (annotations : List TypeAnnot)
  | AnnotationDefault (attribute_name_index attribute_length : Nat)
      (default_value : ElementValue)
  | BootstrapMethods (attribute_name_index attribute_length : Nat)
      (bootstrap_methods : List BootstrapMethod)
  | MethodParameters (attribute_name_index attribute_length : Nat)
      (parameters : List MethodParameter)
  | Module (attribute_name_index attribute_length module_name_index module_flags
        module_version_index : Nat)
      (requires : List ModuleRequires) (exports : List ModuleExports)
      (opens : List ModuleOpens) (uses_index : List Nat)
      (provides : List ModuleProvides)
  | ModulePackages (attribute_name_index attribute_length : Nat)
      (package_index : List Nat)
  | ModuleMainClass (attribute_name_index attribute_length main_class_index : Nat)
  | NestHost (attribute_name_index attribute_length host_class_index : Nat)
  | NestMembers (attribute_name_index attribute_length : Nat) (classes : List Nat)
  | Record (attribute_name_index attribute_length : Nat)
      (components : List RecordComponentInfo)
  | PermittedSubclasses (attribute_name_index attribute_length : Nat)
      (classes : List Nat)

inductive RecordComponentInfo where
  | mk (name_index descriptor_index : Nat) (attributes : List AttributeInfo)

end

structure FieldInfo where
  access_flags : Nat
  name_index : Nat
  descriptor_index : Nat
  attributes : List AttributeInfo

structure MethodInfo where
  access_flags : Nat
  name_index : Nat
  descriptor_index : Nat
  attributes : List AttributeInfo

/-- The decoded class file. -/
structure ClassFile where
  magic : Nat
  minor_version : Nat
  major_version : Nat
  cp_info : ConstantPool
  access_flags : Nat
  this_class : Nat
  super_class : Nat
  interfaces : List Nat
  fields : List FieldInfo
  methods : List MethodInfo
  attributes : List AttributeInfo

/-!  Constant-pool entry parsers (`impl ConstantPoolInfo`). -/

def ConstantPoolInfo.parse_utf8 : Parser ConstantPoolInfo :=
  pbind readU16 (fun length =>
  pbind (readBytes length) (fun bytes =>
  ppure (.Utf8Info length bytes)))

def ConstantPoolInfo.parse_integer : Parser ConstantPoolInfo :=
  pbind readU32 (fun bytes => ppure (.IntegerInfo bytes))

def ConstantPoolInfo.parse_float : Parser ConstantPoolInfo :=
  pbind readU32 (fun bytes => ppure (.FloatInfo bytes))

def ConstantPoolInfo.parse_long : Parser ConstantPoolInfo :=
  pbind readU32 (fun high_bytes =>
  pbind readU32 (fun low_bytes =>
  ppure (.LongInfo high_bytes low_bytes)))

def ConstantPoolInfo.parse_double : Parser ConstantPoolInfo :=
  pbind readU32 (fun high_bytes =>
  pbind readU32 (fun low_bytes =>
  ppure (.DoubleInfo high_bytes low_bytes)))

def ConstantPoolInfo.parse_class : Parser ConstantPoolInfo :=
  pbind readU16 (fun name_index => ppure (.ClassInfo name_index))

def ConstantPoolInfo.parse_string : Parser ConstantPoolInfo :=
  pbind readU16 (fun string_index => ppure (.StringInfo string_index))

def ConstantPoolInfo.parse_fieldref : Parser ConstantPoolInfo :=
  pbind readU16 (fun class_index =>
  pbind readU16 (fun name_and_type_index =>
  ppure (.FieldrefInfo class_index name_and_type_index)))

def ConstantPoolInfo.parse_methodref : Parser ConstantPoolInfo :=
  pbind readU16 (fun class_index =>
  pbind readU16 (fun name_and_type_index =>
  ppure (.MethodrefInfo class_index name_and_type_index)))

def ConstantPoolInfo.parse_interface_methodref : Parser ConstantPoolInfo :=
  pbind readU16 (fun class_index =>
  pbind readU16 (fun name_and_type_index =>
  ppure (.InterfaceMethodrefInfo class_index name_and_type_index)))

def ConstantPoolInfo.parse_name_and_type : Parser ConstantPoolInfo :=
  pbind readU16 (fun name_index =>
  pbind readU16 (fun descriptor_index =>
  ppure (.NameAndTypeInfo name_index descriptor_index)))

/-- The `ReferenceKind::try_from` checked conversion accepts discriminants
1–9; anything else is `InvalidReferenceKind`. -/
def ConstantPoolInfo.parse_method_handle : Parser ConstantPoolInfo :=
  pbind readU8 (fun kind =>
  if 1 ≤ kind ∧ kind ≤ 9 then
    pbind readU16 (fun reference_index =>
    ppure (.MethodHandleInfo kind reference_index))
  else pfail .InvalidReferenceKind)

def ConstantPoolInfo.parse_method_type : Parser ConstantPoolInfo :=
  pbind readU16 (fun descriptor_index => ppure (.MethodTypeInfo descriptor_index))

def ConstantPoolInfo.parse_dynamic : Parser ConstantPoolInfo :=
  pbind readU16 (fun bootstrap_method_attr_index =>
  pbind readU16 (fun name_and_type_index =>
  ppure (.DynamicInfo bootstrap_method_attr_index name_and_type_index)))

def ConstantPoolInfo.parse_invoke_dynamic : Parser ConstantPoolInfo :=
  pbind readU16 (fun bootstrap_method_attr_index =>
  pbind readU16 (fun name_and_type_index =>
  ppure (.InvokeDynamicInfo bootstrap_method_attr_index name_and_type_index)))

def ConstantPoolInfo.parse_module : Parser ConstantPoolInfo :=
  pbind readU16 (fun name_index => ppure (.ModuleInfo name_index))

def ConstantPoolInfo.parse_package : Parser ConstantPoolInfo :=
  pbind readU16 (fun name_index => ppure (.PackageInfo name_index))

/-- `ConstantPoolInfo::parse`: a one-byte tag is converted through the closed
`ConstantPoolInfoTag` enum (`TryFromPrimitive`); the 17 assigned tag values
dispatch to the leaf parsers and every other value is an immediate
`InvalidConstantPoolInfoTag` error. -/
def ConstantPoolInfo.parse : Parser ConstantPoolInfo :=
  pbind readU8 (fun tag =>
  if tag = 1 then ConstantPoolInfo.parse_utf8
  else if tag = 3 then ConstantPoolInfo.parse_integer
  else if tag = 4 then ConstantPoolInfo.parse_float
  else if tag = 5 then ConstantPoolInfo.parse_long
  else if tag = 6 then ConstantPoolInfo.parse_double
  else if tag = 7 then ConstantPoolInfo.parse_class
  else if tag = 8 then ConstantPoolInfo.parse_string
  else if tag = 9 then ConstantPoolInfo.parse_fieldref
  else if tag = 10 then ConstantPoolInfo.parse_methodref
  else if tag = 11 then ConstantPoolInfo.parse_interface_methodref
  else if tag = 12 then ConstantPoolInfo.parse_name_and_type
  else if tag = 15 then ConstantPoolInfo.parse_method_handle
  else if tag = 16 then ConstantPoolInfo.parse_method_type
  else if tag = 17 then ConstantPoolInfo.parse_dynamic
  else if tag = 18 then ConstantPoolInfo.parse_invoke_dynamic
  else if tag = 19 then ConstantPoolInfo.parse_module
  else if tag = 20 then ConstantPoolInfo.parse_package
  else pfail .InvalidConstantPoolInfoTag)

/-- The 17 assigned constant-pool tag bytes. -/
def cpTags : List Nat := [1, 3, 4, 5, 6, 7, 8, 9, 10, 11, 12, 15, 16, 17, 18, 19, 20]

/-!  Fixed-shape record parsers. -/

def ExceptionTableEntry.parse : Parser ExceptionTableEntry :=
  pbind readU16 (fun start_pc =>
  pbind readU16 (fun end_pc =>
  pbind readU16 (fun handler_pc =>
  pbind readU16 (fun catch_type =>
  ppure (ExceptionTableEntry.mk start_pc end_pc handler_pc catch_type)))))

def LineNumberTableEntry.parse : Parser LineNumberTableEntry :=
  pbind readU16 (fun start_pc =>
  pbind readU16 (fun line_number =>
  ppure (LineNumberTableEntry.mk start_pc line_number)))

def LocalVariableTableEntry.parse : Parser LocalVariableTableEntry :=
  pbind readU16 (fun start_pc =>
  pbind readU16 (fun length =>
  pbind readU16 (fun name_index =>
  pbind readU16 (fun descriptor_index =>
  pbind readU16 (fun index =>
  ppure (LocalVariableTableEntry.mk start_pc length name_index descriptor_index index))))))

def LocalVariableTypeTableEntry.parse : Parser LocalVariableTypeTableEntry :=
  pbind readU16 (fun start_pc =>
  pbind readU16 (fun length =>
  pbind readU16 (fun name_index =>
  pbind readU16 (fun signature_index =>
  pbind readU16 (fun index =>
  ppure (LocalVariableTypeTableEntry.mk start_pc length name_index signature_index index))))))

def InnerClass.parse : Parser InnerClass :=
  pbind readU16 (fun inner_class_info_index =>
  pbind readU16 (fun outer_class_info_index =>
  pbind readU16 (fun inner_name_index =>
  pbind readU16 (fun raw_flags =>
  ppure (InnerClass.mk inner_class_info_index outer_class_info_index inner_name_index
    (InnerClassAccessFlags.from_bits_truncate raw_flags))))))

def LocalVarTargetTableEntry.parse : Parser LocalVarTargetTableEntry :=
  pbind readU16 (fun start_pc =>
  pbind readU16 (fun length =>
  pbind readU16 (fun index =>
  ppure (LocalVarTargetTableEntry.mk start_pc length index))))

/-- `TypePathKind::try_from`: discriminants 0–3, else `InvalidTypePathKind`. -/
def Path.parse : Parser Path :=
  pbind readU8 (fun kind =>
  if kind = 0 then
    pbind readU8 (fun idx => ppure (Path.mk .DeepArray idx))
  else if kind = 1 then
    pbind readU8 (fun idx => ppure (Path.mk .DeepNested idx))
  else if kind = 2 then
    pbind readU8 (fun idx => ppure (Path.mk .WildcardTypeArgument idx))
  else if kind = 3 then
    pbind readU8 (fun idx => ppure (Path.mk .TypeArgument idx))
  else pfail .InvalidTypePathKind)

def TypePath.parse : Parser TypePath :=
  pbind readU8 (fun path_length =>
  pbind (replicateP Path.parse path_length) (fun path =>
  ppure (TypePath.mk path)))

def BootstrapMethod.parse : Parser BootstrapMethod :=
  pbind readU16 (fun bootstrap_method_ref =>
  pbind readU16 (fun num_bootstrap_arguments =>
  pbind (replicateP readU16 num_bootstrap_arguments) (fun bootstrap_arguments =>
  ppure (BootstrapMethod.mk bootstrap_method_ref bootstrap_arguments))))

def MethodParameter.parse : Parser MethodParameter :=
  pbind readU16 (fun name_index =>
  pbind readU16 (fun raw_flags =>
  ppure (MethodParameter.mk name_index
    (MethodParameterAccessFlags.from_bits_truncate raw_flags))))

def ModuleRequires.parse : Parser ModuleRequires :=
  pbind readU16 (fun requires_index =>
  pbind readU16 (fun raw_flags =>
  pbind readU16 (fun requires_version_index =>
  ppure (ModuleRequires.mk requires_index
    (RequiresFlags.from_bits_truncate raw_flags) requires_version_index))))

def ModuleExports.parse : Parser ModuleExports :=
  pbind readU16 (fun exports_index =>
  pbind readU16 (fun raw_flags =>
  pbind readU16 (fun exports_to_count =>
  pbind (replicateP readU16 exports_to_count) (fun exports_to_index =>
  ppure (ModuleExports.mk exports_index
    (ExportsFlags.from_bits_truncate raw_flags) exports_to_index)))))

def ModuleOpens.parse : Parser ModuleOpens :=
  pbind readU16 (fun opens_index =>
  pbind readU16 (fun raw_flags =>
  pbind readU16 (fun opens_to_count =>
  pbind (replicateP readU16 opens_to_count) (fun opens_to_index =>
  ppure (ModuleOpens.mk opens_index
    (OpensFlags.from_bits_truncate raw_flags) opens_to_index)))))

def ModuleProvides.parse : Parser ModuleProvides :=
  pbind readU16 (fun provides_index =>
  pbind readU16 (fun provides_with_count =>
  pbind (replicateP readU16 provides_with_count) (fun provides_with_index =>
  ppure (ModuleProvides.mk provides_index provides_with_index))))

/-- `VerificationTypeInfo::parse`: tags 0–8, tags 7 and 8 read an extra u16,
anything else is `InvalidVerificationTypeTag`. -/
def VerificationTypeInfo.parse : Parser VerificationTypeInfo :=
  pbind readU8 (fun tag =>
  if tag = 0 then ppure (.TopVariable tag)
  else if tag = 1 then ppure (.IntegerVariable tag)
  else if tag = 2 then ppure (.FloatVariable tag)
  else if tag = 3 then ppure (.DoubleVariable tag)
  else if tag = 4 then ppure (.LongVariable tag)
  else if tag = 5 then ppure (.NullVariable tag)
  else if tag = 6 then ppure (.UninitializedThisVariable tag)
  else if tag = 7 then
    pbind readU16 (fun cpool_index => ppure (.ObjectVariable tag cpool_index))
  else if tag = 8 then
    pbind readU16 (fun offset => ppure (.UninitializedVariable tag offset))
  else pfail .InvalidVerificationTypeTag)

def StackMapFrame.parse_same_locals_1_item_stack (frame_type : Nat) : Parser StackMapFrame :=
  pbind VerificationTypeInfo.parse (fun stack =>
  ppure (.SameLocals1StackItem frame_type stack))

def StackMapFrame.parse_same_locals_1_stack_item_frame_extended
    (frame_type : Nat) : Parser StackMapFrame :=
  pbind readU16 (fun offset_delta =>
  pbind VerificationTypeInfo.parse (fun stack =>
  ppure (.SameLocals1StackItemExtended frame_type offset_delta stack)))

def StackMapFrame.parse_chop_frame (frame_type : Nat) : Parser StackMapFrame :=
  pbind readU16 (fun offset_delta =>
  ppure (.Chop frame_type offset_delta))

def StackMapFrame.parse_same_frame_extended (frame_type : Nat) : Parser StackMapFrame :=
  pbind readU16 (fun offset_delta =>
  ppure (.SameExtended frame_type offset_delta))

def StackMapFrame.parse_append_frame (frame_type : Nat) : Parser StackMapFrame :=
  pbind readU16 (fun offset_delta =>
  pbind (replicateP VerificationTypeInfo.parse (frame_type - 251)) (fun locals =>
  ppure (.Append frame_type offset_delta locals)))

def StackMapFrame.parse_full_frame (frame_type : Nat) : Parser StackMapFrame :=
  pbind readU16 (fun offset_delta =>
  pbind readU16 (fun number_of_locals =>
  pbind (replicateP VerificationTypeInfo.parse number_of_locals) (fun locals =>
  pbind readU16 (fun number_of_stack_items =>
  pbind (replicateP VerificationTypeInfo.parse number_of_stack_items) (fun stack =>
  ppure (.Full frame_type offset_delta locals stack))))))

/-- `StackMapFrame::parse`: the frame-type byte selects the variant by range;
the unassigned range 128–246 falls into the source's `_ => panic!()` arm. -/
def StackMapFrame.parse : Parser StackMapFrame :=
  pbind readU8 (fun frame_type =>
  if frame_type ≤ 63 then ppure (.Same frame_type)
  else if frame_type ≤ 127 then
    StackMapFrame.parse_same_locals_1_item_stack frame_type
  else if frame_type = 247 then
    StackMapFrame.parse_same_locals_1_stack_item_frame_extended frame_type
  else if 248 ≤ frame_type ∧ frame_type ≤ 250 then
    StackMapFrame.parse_chop_frame frame_type
  else if frame_type = 251 then
    StackMapFrame.parse_same_frame_extended frame_type
  else if 252 ≤ frame_type ∧ frame_type ≤ 254 then
    StackMapFrame.parse_append_frame frame_type
  else if frame_type = 255 then
    StackMapFrame.parse_full_frame frame_type
  else ppanik)

/-!
The recursive annotation / element-value grammar.  The `fuel` argument only
bounds the recursion depth (the Rust recursion is unbounded); exhausted fuel
is `panik`, and every concrete run below is supplied ample fuel.
-/

mutual

def Annot.parse : Nat → Parser Annot
  | 0 => ppanik
  | fuel + 1 =>
    pbind readU16 (fun type_index =>
    pbind readU16 (fun num_element_value_pairs =>
    pbind (replicateP (ElementValuePair.parse fuel) num_element_value_pairs)
      (fun element_value_pairs =>
    ppure (Annot.mk type_index element_value_pairs))))

def ElementValuePair.parse : Nat → Parser ElementValuePair
  | 0 => ppanik
  | fuel + 1 =>
    pbind readU16 (fun element_name_index =>
    pbind (ElementValue.parse fuel) (fun value =>
    ppure (ElementValuePair.mk element_name_index value)))

/-- `ElementValue::parse`: the tag byte is read `as char`; we compare its
ASCII code (66='B', 67='C', 68='D', 70='F', 73='I', 74='J', 83='S', 90='Z',
115='s', 101='e', 99='c', 64='@', 91='['). -/
def ElementValue.parse : Nat → Parser ElementValue
  | 0 => ppanik
  | fuel + 1 =>
    pbind readU8 (fun tag =>
    if tag = 66 ∨ tag = 67 ∨ tag = 68 ∨ tag = 70 ∨ tag = 73 ∨ tag = 74 ∨
        tag = 83 ∨ tag = 90 ∨ tag = 115 then
      pbind readU16 (fun idx => ppure (.ConstValueIndex idx))
    else if tag = 101 then
      pbind readU16 (fun type_name_index =>
      pbind readU16 (fun const_name_index =>
      ppure (.EnumConstValue type_name_index const_name_index)))
    else if tag = 99 then
      pbind readU16 (fun idx => ppure (.ClassInfoIndex idx))
    else if tag = 64 then
      pbind (Annot.parse fuel) (fun a => ppure (.AnnotationValue a))
    else if tag = 91 then
      pbind readU16 (fun num_values =>
      pbind (replicateP (ElementValue.parse fuel) num_values) (fun values =>
      ppure (.ArrayValue values)))
    else pfail .InvalidElementValueTag)

end

/-- `TypeAnnotation::parse`: the `target_type` byte selects the target-info
shape, with the ranges 0x13–0x15 (empty), 0x43–0x46 (offset) and
0x47–0x4B (type-argument) each sharing one shape; unassigned values are
`InvalidTypeAnnotationTargetType`. -/
def TypeAnnot.parse (fuel : Nat) : Parser TypeAnnot :=
  pbind readU8 (fun target_type =>
  pbind
    (if target_type = 0x00 ∨ target_type = 0x01 then
      pbind readU8 (fun type_parameter_index =>
      ppure (TargetInfo.TypeParameter type_parameter_index))
    else if target_type = 0x10 then
      pbind readU16 (fun supertype_index =>
      ppure (TargetInfo.Supertype supertype_index))
    else if target_type = 0x11 ∨ target_type = 0x12 then
      pbind readU8 (fun type_parameter_index =>
      pbind readU8 (fun bound_index =>
      ppure (TargetInfo.TypeParameterBound type_parameter_index bound_index)))
    else if 0x13 ≤ target_type ∧ target_type ≤ 0x15 then
      ppure TargetInfo.Empty
    else if target_type = 0x16 then
      pbind readU8 (fun formal_parameter_index =>
      ppure (TargetInfo.FormalParameter formal_parameter_index))
    else if target_type = 0x17 then
      pbind readU16 (fun throws_type_index =>
      ppure (TargetInfo.Throws throws_type_index))
    else if target_type = 0x40 ∨ target_type = 0x41 then
      pbind readU16 (fun table_length =>
      pbind (replicateP LocalVarTargetTableEntry.parse table_length) (fun table =>
      ppure (TargetInfo.Localvar table)))
    else if target_type = 0x42 then
      pbind readU16 (fun exception_table_index =>
      ppure (TargetInfo.Catch exception_table_index))
    else if 0x43 ≤ target_type ∧ target_type ≤ 0x46 then
      pbind readU16 (fun offset => ppure (TargetInfo.Offset offset))
    else if 0x47 ≤ target_type ∧ target_type ≤ 0x4B then
      pbind readU16 (fun offset =>
      pbind readU8 (fun type_argument_index =>
      ppure (TargetInfo.TypeArgument offset type_argument_index)))
    else pfail .InvalidTypeAnnotationTargetType)
    (fun target_info =>
  pbind (TypePath.parse) (fun target_path =>
  pbind readU16 (fun type_index =>
  pbind readU16 (fun num_element_value_pairs =>
  pbind (replicateP (ElementValuePair.parse fuel) num_element_value_pairs)
    (fun element_value_pairs =>
  ppure (TypeAnnot.mk target_path target_info type_index element_value_pairs)))))))

/-!
`AttributeInfo::parse` and the mutually recursive `RecordComponentInfo::parse`.
Modelled panics: `attribute_name_index - 1` underflows for index 0 (debug
abort), the constant-pool `Index` impl aborts out of bounds, `ConstantValue`'s
`assert_eq!(2, attribute_length)` aborts on mismatch, and the unrecognized-name
arm reads `attribute_length` bytes and then hits `todo!("must be ignored
silently")`.  The `MethodParameters` and `Module` arms re-read a (spurious)
second name/length header exactly as the source does.
-/

mutual

def AttributeInfo.parse : Nat → ConstantPool → Parser AttributeInfo
  | 0, _ => ppanik
  | fuel + 1, cp =>
    pbind readU16 (fun attribute_name_index =>
    pbind readU32 (fun attribute_length =>
    if attribute_name_index = 0 then ppanik
    else
      match cp.indexUsize (attribute_name_index - 1) with
      | none => ppanik
      | some (.Utf8Info _ bytes) =>
        if bytes = strBytes "ConstantValue" then
          if attribute_length = 2 then
            pbind readU16 (fun constantvalue_index =>
            ppure (.ConstantValue attribute_name_index attribute_length constantvalue_index))
          else ppanik
        else if bytes = strBytes "Code" then
          pbind readU16 (fun max_stack =>
          pbind readU16 (fun max_locals =>
          pbind readU32 (fun code_length =>
          pbind (readBytes code_length) (fun code =>
          pbind readU16 (fun exception_table_length =>
          pbind (replicateP ExceptionTableEntry.parse exception_table_length)
            (fun exception_table =>
          pbind readU16 (fun attributes_count =>
          pbind (replicateP (AttributeInfo.parse fuel cp) attributes_count)
            (fun attributes =>
          ppure (.Code attribute_name_index attribute_length max_stack max_locals
            code_length code exception_table attributes)))))))))
        else if bytes = strBytes "StackMapTable" then
          pbind readU16 (fun number_of_entries =>
          pbind (replicateP StackMapFrame.parse number_of_entries) (fun entries =>
          ppure (.StackMapTable attribute_name_index attribute_length entries)))
        else if bytes = strBytes "Exceptions" then
          pbind readU16 (fun number_of_exceptions =>
          pbind (replicateP readU16 number_of_exceptions) (fun exception_index_table =>
          ppure (.Exceptions attribute_name_index attribute_length exception_index_table)))
        else if bytes = strBytes "InnerClasses" then
          pbind readU16 (fun number_of_classes =>
          pbind (replicateP InnerClass.parse number_of_classes) (fun classes =>
          ppure (.InnerClasses attribute_name_index attribute_length classes)))
        else if bytes = strBytes "EnclosingMethod" then
          pbind readU16 (fun class_index =>
          pbind readU16 (fun method_index =>
          ppure (.EnclosingMethod attribute_name_index attribute_length
            class_index method_index)))
        else if bytes = strBytes "Synthetic" then
          ppure (.Synthetic attribute_name_index attribute_length)
        else if bytes = strBytes "Signature" then
          pbind readU16 (fun signature_index =>
          ppure (.Signature attribute_name_index attribute_length signature_index))
        else if bytes = strBytes "SourceFile" then
          pbind readU16 (fun sourcefile_index =>
          ppure (.SourceFile attribute_name_index attribute_length sourcefile_index))
        else if bytes = strBytes "SourceDebugExtension" then
          pbind (readBytes attribute_length) (fun debug_extension =>
          ppure (.SourceDebugExtension attribute_name_index attribute_length debug_extension))
        else if bytes = strBytes "LineNumberTable" then
          pbind readU16 (fun line_number_table_length =>
          pbind (replicateP LineNumberTableEntry.parse line_number_table_length)
            (fun line_number_table =>
          ppure (.LineNumberTable attribute_name_index attribute_length line_number_table)))
        else if bytes = strBytes "LocalVariableTable" then
          pbind readU16 (fun local_variable_table_length =>
          pbind (replicateP LocalVariableTableEntry.parse local_variable_table_length)
            (fun local_variable_table =>
          ppure (.LocalVariableTable attribute_name_index attribute_length
            local_variable_table)))
        else if bytes = strBytes "LocalVariableTypeTable" then
          pbind readU16 (fun local_variable_table_length =>
          pbind (replicateP LocalVariableTypeTableEntry.parse local_variable_table_length)
            (fun local_variable_type_table =>
          ppure (.LocalVariableTypeTable attribute_name_index attribute_length
            local_variable_type_table)))
        else if bytes = strBytes "Deprecated" then
          ppure (.Deprecated attribute_name_index attribute_length)
        else if bytes = strBytes "RuntimeVisibleAnnotations" then
          pbind readU16 (fun num_annotations =>
          pbind (replicateP (Annot.parse fuel) num_annotations) (fun annotations =>
          ppure (.RuntimeVisibleAnnotations attribute_name_index attribute_length
            annotations)))
        else if bytes = strBytes "RuntimeInvisibleAnnotations" then
          pbind readU16 (fun num_annotations =>
          pbind (replicateP (Annot.parse fuel) num_annotations) (fun annotations =>
          ppure (.RuntimeInvisibleAnnotations attribute_name_index attribute_length
            annotations)))
        else if bytes = strBytes "RuntimeVisibleParameterAnnotations" then
          pbind readU8 (fun num_parameters =>
          pbind (replicateP
              (pbind readU16 (fun num_annotations =>
               replicateP (Annot.parse fuel) num_annotations))
              num_parameters)
            (fun parameter_annotations =>
          ppure (.RuntimeVisibleParameterAnnotations attribute_name_index attribute_length
            parameter_annotations)))
        else if bytes = strBytes "RuntimeInvisibleParameterAnnotations" then
          pbind readU8 (fun num_parameters =>
          pbind (replicateP
              (pbind readU16 (fun num_annotations =>
               replicateP (Annot.parse fuel) num_annotations))
              num_parameters)
            (fun parameter_annotations =>
          ppure (.RuntimeInvisibleParameterAnnotations attribute_name_index attribute_length
            parameter_annotations)))
        else if bytes = strBytes "RuntimeVisibleTypeAnnotations" then
          pbind readU16 (fun num_annotations =>
          pbind (replicateP (TypeAnnot.parse fuel) num_annotations) (fun annotations =>
          ppure (.RuntimeVisibleTypeAnnotations attribute_name_index attribute_length
            annotations)))
        else if bytes = strBytes "RuntimeInvisibleTypeAnnotations" then
          pbind readU16 (fun num_annotations =>
          pbind (replicateP (TypeAnnot.parse fuel) num_annotations) (fun annotations =>
          ppure (.RuntimeInvisibleTypeAnnotations attribute_name_index attribute_length
            annotations)))
        else if bytes = strBytes "AnnotationDefault" then
          pbind (ElementValue.parse fuel) (fun default_value =>
          ppure (.AnnotationDefault attribute_name_index attribute_length default_value))
        else if bytes = strBytes "BootstrapMethods" then
          pbind readU16 (fun num_bootstrap_methods =>
          pbind (replicateP BootstrapMethod.parse num_bootstrap_methods)
            (fun bootstrap_methods =>
          ppure (.BootstrapMethods attribute_name_index attribute_length
            bootstrap_methods)))
        else if bytes = strBytes "MethodParameters" then
          pbind readU16 (fun attribute_name_index2 =>
          pbind readU32 (fun attribute_length2 =>
          pbind readU8 (fun parameters_count =>
          pbind (replicateP MethodParameter.parse parameters_count) (fun parameters =>
          ppure (.MethodParameters attribute_name_index2 attribute_length2 parameters)))))
        else if bytes = strBytes "Module" then
          pbind readU16 (fun attribute_name_index2 =>
          pbind readU32 (fun attribute_length2 =>
          pbind readU16 (fun module_name_index =>
          pbind readU16 (fun raw_module_flags =>
          pbind readU16 (fun module_version_index =>
          pbind readU16 (fun requires_count =>
          pbind (replicateP ModuleRequires.parse requires_count) (fun requires =>
          pbind readU16 (fun exports_count =>
          pbind (replicateP ModuleExports.parse exports_count) (fun exports =>
          pbind readU16 (fun opens_count =>
          pbind (replicateP ModuleOpens.parse opens_count) (fun opens =>
          pbind readU16 (fun uses_count =>
          pbind (replicateP readU16 uses_count) (fun uses_index =>
          pbind readU16 (fun provides_count =>
          pbind (replicateP ModuleProvides.parse provides_count) (fun provides =>
          ppure (.Module attribute_name_index2 attribute_length2 module_name_index
            (ModuleFlags.from_bits_truncate raw_module_flags) module_version_index
            requires exports opens uses_index provides))))))))))))))))
        else if bytes = strBytes "ModulePackages" then
          pbind readU16 (fun package_count =>
          pbind (replicateP readU16 package_count) (fun package_index =>
          ppure (.ModulePackages attribute_name_index attribute_length package_index)))
        else if bytes = strBytes "ModuleMainClass" then
          pbind readU16 (fun main_class_index =>
          ppure (.ModuleMainClass attribute_name_index attribute_length main_class_index))
        else if bytes = strBytes "NestHost" then
          pbind readU16 (fun host_class_index =>
          ppure (.NestHost attribute_name_index attribute_length host_class_index))
        else if bytes = strBytes "NestMembers" then
          pbind readU16 (fun number_of_classes =>
          pbind (replicateP readU16 number_of_classes) (fun classes =>
          ppure (.NestMembers attribute_name_index attribute_length classes)))
        else if bytes = strBytes "Record" then
          pbind readU16 (fun components_count =>
          pbind (replicateP (RecordComponentInfo.parse fuel cp) components_count)
            (fun components =>
          ppure (.Record attribute_name_index attribute_length components)))
        else if bytes = strBytes "PermittedSubclasses" then
          pbind readU16 (fun number_of_classes =>
          pbind (replicateP readU16 number_of_classes) (fun classes =>
          ppure (.PermittedSubclasses attribute_name_index attribute_length classes)))
        else
          pbind (readBytes attribute_length) (fun _ => ppanik)
      | some _ => pfail .InvalidAttributeNameIndex))

def RecordComponentInfo.parse : Nat → ConstantPool → Parser RecordComponentInfo
  | 0, _ => ppanik
  | fuel + 1, cp =>
    pbind readU16 (fun name_index =>
    pbind readU16 (fun descriptor_index =>
    pbind readU16 (fun attributes_count =>
    pbind (replicateP (AttributeInfo.parse fuel cp) attributes_count) (fun attributes =>
    ppure (RecordComponentInfo.mk name_index descriptor_index attributes)))))

end

def FieldInfo.parse (fuel : Nat) (cp : ConstantPool) : Parser FieldInfo :=
  pbind readU16 (fun raw_flags =>
  pbind readU16 (fun name_index =>
  pbind readU16 (fun descriptor_index =>
  pbind readU16 (fun attributes_count =>
  pbind (replicateP (AttributeInfo.parse fuel cp) attributes_count) (fun attributes =>
  ppure (FieldInfo.mk (FieldAccessFlags.from_bits_truncate raw_flags) name_index
    descriptor_index attributes))))))

def MethodInfo.parse (fuel : Nat) (cp : ConstantPool) : Parser MethodInfo :=
  pbind readU16 (fun access_flags_bytes =>
  pbind readU16 (fun name_index =>
  pbind readU16 (fun descriptor_index =>
  pbind readU16 (fun attributes_count =>
  pbind (replicateP (AttributeInfo.parse fuel cp) attributes_count) (fun attributes =>
  ppure (MethodInfo.mk (MethodAccessFlags.from_bits_truncate access_flags_bytes) name_index
    descriptor_index attributes))))))

/-- `ClassFile::parse`: magic, versions, the constant pool (count followed by
count − 1 entries; a count of 0 underflows `constant_pool_count - 1` and
aborts), flags, this/super, interfaces, fields, methods, attributes. -/
def ClassFile.parse (fuel : Nat) : Parser ClassFile :=
  pbind readU32 (fun magic =>
  if magic ≠ 0xCAFEBABE then pfail .InvalidMagicValue
  else
  pbind readU16 (fun minor_version =>
  pbind readU16 (fun major_version =>
  pbind readU16 (fun constant_pool_count =>
  if constant_pool_count = 0 then ppanik
  else
  pbind (replicateP ConstantPoolInfo.parse (constant_pool_count - 1)) (fun cp_items =>
  pbind readU16 (fun raw_access_flags =>
  pbind readU16 (fun this_class =>
  pbind readU16 (fun super_class =>
  pbind readU16 (fun interfaces_count =>
  pbind (replicateP readU16 interfaces_count) (fun interfaces =>
  pbind readU16 (fun fields_count =>
  pbind (replicateP (FieldInfo.parse fuel (ConstantPool.mk cp_items)) fields_count)
    (fun fields =>
  pbind readU16 (fun methods_count =>
  pbind (replicateP (MethodInfo.parse fuel (ConstantPool.mk cp_items)) methods_count)
    (fun methods =>
  pbind readU16 (fun attributes_count =>
  pbind (replicateP (AttributeInfo.parse fuel (ConstantPool.mk cp_items)) attributes_count)
    (fun attributes =>
  ppure (ClassFile.mk magic minor_version major_version (ConstantPool.mk cp_items)
    (ClassAccessFlags.from_bits_truncate raw_access_flags) this_class super_class
    interfaces fields methods attributes)))))))))))))))))

/-!
The interpreter data model (vm/types/mod.rs, vm/stack.rs) and the opcode
handlers of `Thread` (vm/thread.rs).  Lists model `Vec`s with the head as the
vector's end (the push/pop/last side); `Option` models the panicking partial
operations (`unwrap`, the typed `pop_*` helpers' `panic!("invalid type")`,
and the `todo!` in `check_cast`): `none` is an abort.
-/

/-- The 10-variant tagged union of runtime values.  `i8`/`i16`/`i32`/`i64`
payloads are `Int`, `u16`/`usize` payloads are `Nat`; the `f32`/`f64` payloads
are carried as raw bit patterns, which suffices because no embedded handler
computes with them. -/
inductive NativeValue where
  | Boolean (v : Bool)
  | Byte (v : Int)
  | Char (v : Nat)
  | Short (v : Int)
  | Integer (v : Int)
  | Float (bits : Nat)
  | Long (v : Int)
  | Double (bits : Nat)
  | Reference (v : Nat)
  | ReturnAddress (v : Nat)
  deriving Repr, DecidableEq

/-- The per-frame operand stack; `inner`'s head is the top of the stack. -/
structure OperandStack where
  inner : List NativeValue
  deriving Repr, DecidableEq

def OperandStack.push (st : OperandStack) (value : NativeValue) : OperandStack :=
  OperandStack.mk (value :: st.inner)

/-- `last().unwrap()`: `none` models the panic on an empty stack. -/
def OperandStack.last (st : OperandStack) : Option NativeValue :=
  st.inner.head?

/-- `pop().unwrap()`, returning the popped value and the shrunken stack. -/
def OperandStack.pop (st : OperandStack) : Option (NativeValue × OperandStack) :=
  match st.inner with
  | [] => none
  | v :: rest => some (v, OperandStack.mk rest)

/-- `pop_integer`: pop, then `panic!("invalid type")` unless an `Integer`. -/
def OperandStack.pop_integer (st : OperandStack) : Option (Int × OperandStack) :=
  match st.inner with
  | NativeValue.Integer v :: rest => some (v, OperandStack.mk rest)
  | _ => none

/-- `pop_reference`: pop, then `panic!("invalid type")` unless a `Reference`. -/
def OperandStack.pop_reference (st : OperandStack) : Option (Nat × OperandStack) :=
  match st.inner with
  | NativeValue.Reference v :: rest => some (v, OperandStack.mk rest)
  | _ => none

/-- A call frame: locals, operand stack, and the shared constant pool. -/
structure Frame where
  locals : List NativeValue
  operand_stack : OperandStack
  constant_pool : ConstantPool

/-- The per-thread frame stack; `frames`'s head is the current (top) frame. -/
structure Stack where
  frames : List Frame

def Stack.push_frame (s : Stack) (frame : Frame) : Stack :=
  Stack.mk (frame :: s.frames)

/-- The thread: pc register plus its private stack. -/
structure Thread where
  pc : Nat
  stack : Stack

/-- `operand_stack_mut` plus writing the mutated stack back: applies `f` to
the current frame's operand stack; `none` models the `unwrap` panic when no
frame exists, or a panic inside `f`. -/
def Thread.withOperandStack (t : Thread) (f : OperandStack → Option OperandStack) :
    Option Thread :=
  match t.stack.frames with
  | [] => none
  | fr :: rest =>
    (f fr.operand_stack).map (fun st =>
      Thread.mk t.pc (Stack.mk (Frame.mk fr.locals st fr.constant_pool :: rest)))

/-- `a_const_null`: pushes the null reference, `Reference(0)`. -/
def Thread.a_const_null (t : Thread) : Option Thread :=
  t.withOperandStack (fun st => some (st.push (.Reference 0)))

/-- `check_cast`: if the top of stack is the null reference the handler
returns immediately (no mutation at all); every other top (non-null
reference, other variant, or empty stack) reaches `pop_reference` /
`todo!("cast")` and aborts. -/
def Thread.check_cast (t : Thread) (_index : Nat) : Option Thread :=
  match t.stack.frames with
  | [] => none
  | fr :: _ =>
    match fr.operand_stack.last with
    | some (.Reference 0) => some t
    | _ => none

/-- `dup`: clones `last()` and pushes the clone. -/
def Thread.dup (t : Thread) : Option Thread :=
  t.withOperandStack (fun st =>
    match st.last with
    | none => none
    | some v => some (st.push v))

/-- Rust's `as i8` on an `i32` value: low 8 bits, sign extended. -/
def asI8 (v : Int) : Int := (v + 128) % 256 - 128

/-- Rust's `as u16` on an `i32` value: low 16 bits, unsigned. -/
def asU16 (v : Int) : Nat := (v % 65536).toNat

/-- Rust's `as i16` on an `i32` value: low 16 bits, sign extended. -/
def asI16 (v : Int) : Int := (v + 32768) % 65536 - 32768

/-- Two's-complement wraparound of an integer result into `i32`
(`wrapping_add` / `wrapping_mul`). -/
def wrap32 (v : Int) : Int := (v + 2147483648) % 4294967296 - 2147483648

def Thread.i2b (t : Thread) : Option Thread :=
  t.withOperandStack (fun st =>
    match st.pop_integer with
    | none => none
    | some (v, st1) => some (st1.push (.Byte (asI8 v))))

def Thread.i2c (t : Thread) : Option Thread :=
  t.withOperandStack (fun st =>
    match st.pop_integer with
    | none => none
    | some (v, st1) => some (st1.push (.Char (asU16 v))))

def Thread.i2s (t : Thread) : Option Thread :=
  t.withOperandStack (fun st =>
    match st.pop_integer with
    | none => none
    | some (v, st1) => some (st1.push (.Short (asI16 v))))

/-- `i2l`: `v as i64` is exact for every `i32` value. -/
def Thread.i2l (t : Thread) : Option Thread :=
  t.withOperandStack (fun st =>
    match st.pop_integer with
    | none => none
    | some (v, st1) => some (st1.push (.Long v)))

def Thread.iadd (t : Thread) : Option Thread :=
  t.withOperandStack (fun st =>
    match st.pop_integer with
    | none => none
    | some (op2, st1) =>
      match st1.pop_integer with
      | none => none
      | some (op1, st2) => some (st2.push (.Integer (wrap32 (op1 + op2)))))

def Thread.imul (t : Thread) : Option Thread :=
  t.withOperandStack (fun st =>
    match st.pop_integer with
    | none => none
    | some (op2, st1) =>
      match st1.pop_integer with
      | none => none
      | some (op1, st2) => some (st2.push (.Integer (wrap32 (op1 * op2)))))

/-!  Concrete test vectors used by the theorems below. -/

/-- A minimal valid class file: magic, version 61.0, a constant pool of
count 2 (one empty UTF-8 entry), no interfaces/fields/methods/attributes.
27 bytes; its logical end is its last byte. -/
def streamMinimal : List Nat :=
  [0xCA, 0xFE, 0xBA, 0xBE, 0, 0, 0, 0x3D, 0, 2, 1, 0, 0,
   0, 0, 0, 1, 0, 0, 0, 0, 0, 0, 0, 0, 0, 0]

/-- The decoded form of `streamMinimal`. -/
def cfMinimal : ClassFile :=
  ClassFile.mk 0xCAFEBABE 0 61 (ConstantPool.mk [.Utf8Info 0 []]) 0 1 0 [] [] [] []

/-- A pool whose entry 0 is the UTF-8 name "Foo", not a recognized attribute
name. -/
def cpFoo : ConstantPool := ConstantPool.mk [.Utf8Info 3 (strBytes "Foo")]

/-- A pool whose entry 0 is the UTF-8 name "MethodParameters". -/
def cpMP : ConstantPool := ConstantPool.mk [.Utf8Info 16 (strBytes "MethodParameters")]

/-!
The parser laws behind the truncation property.  `Lawful p` says: whenever `p`
succeeds it has consumed an identifiable prefix `c` of its input, its result
depends only on `c` (so trailing bytes are untouched), and running `p` on any
proper prefix of `c` fails with `UnexpectedEOF` (it replays the same reads
byte for byte until one `read_exact` falls short).
-/

def Lawful {α : Type} (p : Parser α) : Prop :=
  ∀ s a r, p s = .ok a r →
    ∃ c, s = c ++ r ∧
      (∀ t, p (c ++ t) = .ok a t) ∧
      (∀ q, q <+: c → q.length < c.length → p q = .err .UnexpectedEOF)

theorem lawful_ppure {α : Type} (a : α) : Lawful (ppure a) := by
  intro s b r h
  cases h
  exact ⟨[], rfl, fun t => rfl, fun q hq hlen => absurd hlen (by simp)⟩

theorem lawful_pfail {α : Type} (e : ClassFileParseError) : Lawful (pfail (α := α) e) := by
  intro s a r h
  cases h

theorem lawful_ppanik {α : Type} : Lawful (ppanik (α := α)) := by
  intro s a r h
  cases h

theorem pbind_ok {α β : Type} {p : Parser α} {f : α → Parser β} {s : List Nat}
    {b : β} {r : List Nat} (h : pbind p f s = .ok b r) :
    ∃ a m, p s = .ok a m ∧ f a m = .ok b r := by
  unfold pbind at h
  split at h
  · rename_i a m hps
    exact ⟨a, m, hps, h⟩
  · cases h
  · cases h

theorem pbind_apply_ok {α β : Type} {p : Parser α} {f : α → Parser β} {s m : List Nat}
    {a : α} (h : p s = .ok a m) : pbind p f s = f a m := by
  unfold pbind
  rw [h]

theorem pbind_apply_err {α β : Type} {p : Parser α} {f : α → Parser β} {s : List Nat}
    {e : ClassFileParseError} (h : p s = .err e) : pbind p f s = .err e := by
  unfold pbind
  rw [h]

theorem ppure_ok {α : Type} {a b : α} {s r : List Nat} (h : ppure a s = .ok b r) :
    b = a ∧ r = s := by
  cases h
  exact ⟨rfl, rfl⟩

theorem readBytes_ok {n : Nat} {s : List Nat} {a r : List Nat}
    (h : readBytes n s = .ok a r) :
    n ≤ s.length ∧ a = s.take n ∧ r = s.drop n := by
  unfold readBytes at h
  split at h
  · rename_i hle
    cases h
    exact ⟨hle, rfl, rfl⟩
  · cases h

theorem lawful_readBytes (n : Nat) : Lawful (readBytes n) := by
  intro s a r h
  obtain ⟨hle, rfl, rfl⟩ := readBytes_ok h
  have hlen : (s.take n).length = n := by
    simp [List.length_take, Nat.min_eq_left hle]
  refine ⟨s.take n, (List.take_append_drop n s).symm, ?_, ?_⟩
  · intro t
    unfold readBytes
    rw [if_pos (by simp [List.length_append, hlen])]
    rw [List.take_left' hlen, List.drop_left' hlen]
  · intro q hq hlt
    unfold readBytes
    rw [if_neg (by omega)]

theorem lawful_pbind {α β : Type} {p : Parser α} {f : α → Parser β}
    (hp : Lawful p) (hf : ∀ a, Lawful (f a)) : Lawful (pbind p f) := by
  intro s b r h
  obtain ⟨a, m, hps, hfm⟩ := pbind_ok h
  obtain ⟨c₁, rfl, ext₁, tr₁⟩ := hp s a m hps
  obtain ⟨c₂, rfl, ext₂, tr₂⟩ := hf a m b r hfm
  refine ⟨c₁ ++ c₂, by rw [List.append_assoc], ?_, ?_⟩
  · intro t
    have h1 : p (c₁ ++ c₂ ++ t) = .ok a (c₂ ++ t) := by
      rw [List.append_assoc]
      exact ext₁ (c₂ ++ t)
    rw [pbind_apply_ok h1]
    exact ext₂ t
  · intro q hq hlen
    rcases Nat.lt_or_ge q.length c₁.length with hlt | hge
    · have hq₁ : q <+: c₁ :=
        List.prefix_of_prefix_length_le hq (List.prefix_append c₁ c₂) (Nat.le_of_lt hlt)
      rw [pbind_apply_err (tr₁ q hq₁ hlt)]
    · have hc₁q : c₁ <+: q :=
        List.prefix_of_prefix_length_le (List.prefix_append c₁ c₂) hq hge
      obtain ⟨q₂, rfl⟩ := hc₁q
      have hq₂ : q₂ <+: c₂ := (List.prefix_append_right_inj c₁).mp hq
      have hlen₂ : q₂.length < c₂.length := by
        simp only [List.length_append] at hlen
        omega
      rw [pbind_apply_ok (ext₁ q₂)]
      exact tr₂ q₂ hq₂ hlen₂

theorem lawful_ite {α : Type} (c : Prop) [Decidable c] {p q : Parser α}
    (hp : Lawful p) (hq : Lawful q) : Lawful (if c then p else q) := by
  by_cases hc : c
  · rwa [if_pos hc]
  · rwa [if_neg hc]

theorem lawful_readU8 : Lawful readU8 :=
  lawful_pbind (lawful_readBytes 1) (fun bs => lawful_ppure (beVal bs))

theorem lawful_readU16 : Lawful readU16 :=
  lawful_pbind (lawful_readBytes 2) (fun bs => lawful_ppure (beVal bs))

theorem lawful_readU32 : Lawful readU32 :=
  lawful_pbind (lawful_readBytes 4) (fun bs => lawful_ppure (beVal bs))

theorem lawful_replicateP {α : Type} {p : Parser α} (hp : Lawful p) :
    ∀ n, Lawful (replicateP p n)
  | 0 => lawful_ppure []
  | n + 1 =>
    lawful_pbind hp (fun a =>
      lawful_pbind (lawful_replicateP hp n) (fun l => lawful_ppure (a :: l)))

theorem replicateP_ok_length {α : Type} {p : Parser α} :
    ∀ {n : Nat} {s : List Nat} {l : List α} {r : List Nat},
      replicateP p n s = .ok l r → l.length = n := by
  intro n
  induction n with
  | zero =>
    intro s l r h
    obtain ⟨rfl, _⟩ := ppure_ok h
    rfl
  | succ n ih =>
    intro s l r h
    obtain ⟨a, m, _, h2⟩ := pbind_ok h
    obtain ⟨l', m', hrep, h3⟩ := pbind_ok h2
    obtain ⟨rfl, _⟩ := ppure_ok h3
    simp [ih hrep]

/-!  Lawfulness of every leaf parser. -/

theorem lawful_cp_parse_utf8 : Lawful ConstantPoolInfo.parse_utf8 := by
  unfold ConstantPoolInfo.parse_utf8
  repeat' first
    | apply lawful_pbind
    | apply lawful_ite
    | apply lawful_replicateP
    | exact lawful_readU8
    | exact lawful_readU16
    | exact lawful_readU32
    | apply lawful_readBytes
    | apply lawful_ppure
    | apply lawful_pfail
    | apply lawful_ppanik
    | split
    | intro x

theorem lawful_cp_parse_integer : Lawful ConstantPoolInfo.parse_integer := by
  unfold ConstantPoolInfo.parse_integer
  repeat' first
    | apply lawful_pbind
    | apply lawful_ite
    | apply lawful_replicateP
    | exact lawful_readU8
    | exact lawful_readU16
    | exact lawful_readU32
    | apply lawful_readBytes
    | apply lawful_ppure
    | apply lawful_pfail
    | apply lawful_ppanik
    | split
    | intro x

theorem lawful_cp_parse_float : Lawful ConstantPoolInfo.parse_float := by
  unfold ConstantPoolInfo.parse_float
  repeat' first
    | apply lawful_pbind
    | apply lawful_ite
    | apply lawful_replicateP
    | exact lawful_readU8
    | exact lawful_readU16
    | exact lawful_readU32
    | apply lawful_readBytes
    | apply lawful_ppure
    | apply lawful_pfail
    | apply lawful_ppanik
    | split
    | intro x

theorem lawful_cp_parse_long : Lawful ConstantPoolInfo.parse_long := by
  unfold ConstantPoolInfo.parse_long
  repeat' first
    | apply lawful_pbind
    | apply lawful_ite
    | apply lawful_replicateP
    | exact lawful_readU8
    | exact lawful_readU16
    | exact lawful_readU32
    | apply lawful_readBytes
    | apply lawful_ppure
    | apply lawful_pfail
    | apply lawful_ppanik
    | split
    | intro x

theorem lawful_cp_parse_double : Lawful ConstantPoolInfo.parse_double := by
  unfold ConstantPoolInfo.parse_double
  repeat' first
    | apply lawful_pbind
    | apply lawful_ite
    | apply lawful_replicateP
    | exact lawful_readU8
    | exact lawful_readU16
    | exact lawful_readU32
    | apply lawful_readBytes
    | apply lawful_ppure
    | apply lawful_pfail
    | apply lawful_ppanik
    | split
    | intro x

theorem lawful_cp_parse_class : Lawful ConstantPoolInfo.parse_class := by
  unfold ConstantPoolInfo.parse_class
  repeat' first
    | apply lawful_pbind
    | apply lawful_ite
    | apply lawful_replicateP
    | exact lawful_readU8
    | exact lawful_readU16
    | exact lawful_readU32
    | apply lawful_readBytes
    | apply lawful_ppure
    | apply lawful_pfail
    | apply lawful_ppanik
    | split
    | intro x

theorem lawful_cp_parse_string : Lawful ConstantPoolInfo.parse_string := by
  unfold ConstantPoolInfo.parse_string
  repeat' first
    | apply lawful_pbind
    | apply lawful_ite
    | apply lawful_replicateP
    | exact lawful_readU8
    | exact lawful_readU16
    | exact lawful_readU32
    | apply lawful_readBytes
    | apply lawful_ppure
    | apply lawful_pfail
    | apply lawful_ppanik
    | split
    | intro x

theorem lawful_cp_parse_fieldref : Lawful ConstantPoolInfo.parse_fieldref := by
  unfold ConstantPoolInfo.parse_fieldref
  repeat' first
    | apply lawful_pbind
    | apply lawful_ite
    | apply lawful_replicateP
    | exact lawful_readU8
    | exact lawful_readU16
    | exact lawful_readU32
    | apply lawful_readBytes
    | apply lawful_ppure
    | apply lawful_pfail
    | apply lawful_ppanik
    | split
    | intro x

theorem lawful_cp_parse_methodref : Lawful ConstantPoolInfo.parse_methodref := by
  unfold ConstantPoolInfo.parse_methodref
  repeat' first
    | apply lawful_pbind
    | apply lawful_ite
    | apply lawful_replicateP
    | exact lawful_readU8
    | exact lawful_readU16
    | exact lawful_readU32
    | apply lawful_readBytes
    | apply lawful_ppure
    | apply lawful_pfail
    | apply lawful_ppanik
    | split
    | intro x

theorem lawful_cp_parse_interface_methodref : Lawful ConstantPoolInfo.parse_interface_methodref := by
  unfold ConstantPoolInfo.parse_interface_methodref
  repeat' first
    | apply lawful_pbind
    | apply lawful_ite
    | apply lawful_replicateP
    | exact lawful_readU8
    | exact lawful_readU16
    | exact lawful_readU32
    | apply lawful_readBytes
    | apply lawful_ppure
    | apply lawful_pfail
    | apply lawful_ppanik
    | split
    | intro x

theorem lawful_cp_parse_name_and_type : Lawful ConstantPoolInfo.parse_name_and_type := by
  unfold ConstantPoolInfo.parse_name_and_type
  repeat' first
    | apply lawful_pbind
    | apply lawful_ite
    | apply lawful_replicateP
    | exact lawful_readU8
    | exact lawful_readU16
    | exact lawful_readU32
    | apply lawful_readBytes
    | apply lawful_ppure
    | apply lawful_pfail
    | apply lawful_ppanik
    | split
    | intro x

theorem lawful_cp_parse_method_handle : Lawful ConstantPoolInfo.parse_method_handle := by
  unfold ConstantPoolInfo.parse_method_handle
  repeat' first
    | apply lawful_pbind
    | apply lawful_ite
    | apply lawful_replicateP
    | exact lawful_readU8
    | exact lawful_readU16
    | exact lawful_readU32
    | apply lawful_readBytes
    | apply lawful_ppure
    | apply lawful_pfail
    | apply lawful_ppanik
    | split
    | intro x

theorem lawful_cp_parse_method_type : Lawful ConstantPoolInfo.parse_method_type := by
  unfold ConstantPoolInfo.parse_method_type
  repeat' first
    | apply lawful_pbind
    | apply lawful_ite
    | apply lawful_replicateP
    | exact lawful_readU8
    | exact lawful_readU16
    | exact lawful_readU32
    | apply lawful_readBytes
    | apply lawful_ppure
    | apply lawful_pfail
    | apply lawful_ppanik
    | split
    | intro x

theorem lawful_cp_parse_dynamic : Lawful ConstantPoolInfo.parse_dynamic := by
  unfold ConstantPoolInfo.parse_dynamic
  repeat' first
    | apply lawful_pbind
    | apply lawful_ite
    | apply lawful_replicateP
    | exact lawful_readU8
    | exact lawful_readU16
    | exact lawful_readU32
    | apply lawful_readBytes
    | apply lawful_ppure
    | apply lawful_pfail
    | apply lawful_ppanik
    | split
    | intro x

theorem lawful_cp_parse_invoke_dynamic : Lawful ConstantPoolInfo.parse_invoke_dynamic := by
  unfold ConstantPoolInfo.parse_invoke_dynamic
  repeat' first
    | apply lawful_pbind
    | apply lawful_ite
    | apply lawful_replicateP
    | exact lawful_readU8
    | exact lawful_readU16
    | exact lawful_readU32
    | apply lawful_readBytes
    | apply lawful_ppure
    | apply lawful_pfail
    | apply lawful_ppanik
    | split
    | intro x

theorem lawful_cp_parse_module : Lawful ConstantPoolInfo.parse_module := by
  unfold ConstantPoolInfo.parse_module
  repeat' first
    | apply lawful_pbind
    | apply lawful_ite
    | apply lawful_replicateP
    | exact lawful_readU8
    | exact lawful_readU16
    | exact lawful_readU32
    | apply lawful_readBytes
    | apply lawful_ppure
    | apply lawful_pfail
    | apply lawful_ppanik
    | split
    | intro x

theorem lawful_cp_parse_package : Lawful ConstantPoolInfo.parse_package := by
  unfold ConstantPoolInfo.parse_package
  repeat' first
    | apply lawful_pbind
    | apply lawful_ite
    | apply lawful_replicateP
    | exact lawful_readU8
    | exact lawful_readU16
    | exact lawful_readU32
    | apply lawful_readBytes
    | apply lawful_ppure
    | apply lawful_pfail
    | apply lawful_ppanik
    | split
    | intro x

theorem lawful_cp_parse : Lawful ConstantPoolInfo.parse := by
  unfold ConstantPoolInfo.parse
  repeat' first
    | exact lawful_cp_parse_utf8
    | exact lawful_cp_parse_integer
    | exact lawful_cp_parse_float
    | exact lawful_cp_parse_long
    | exact lawful_cp_parse_double
    | exact lawful_cp_parse_class
    | exact lawful_cp_parse_string
    | exact lawful_cp_parse_fieldref
    | exact lawful_cp_parse_methodref
    | exact lawful_cp_parse_interface_methodref
    | exact lawful_cp_parse_name_and_type
    | exact lawful_cp_parse_method_handle
    | exact lawful_cp_parse_method_type
    | exact lawful_cp_parse_dynamic
    | exact lawful_cp_parse_invoke_dynamic
    | exact lawful_cp_parse_module
    | exact lawful_cp_parse_package
    | apply lawful_pbind
    | apply lawful_ite
    | apply lawful_replicateP
    | exact lawful_readU8
    | exact lawful_readU16
    | exact lawful_readU32
    | apply lawful_readBytes
    | apply lawful_ppure
    | apply lawful_pfail
    | apply lawful_ppanik
    | split
    | intro x

theorem lawful_exception_table_entry_parse : Lawful ExceptionTableEntry.parse := by
  unfold ExceptionTableEntry.parse
  repeat' first
    | apply lawful_pbind
    | apply lawful_ite
    | apply lawful_replicateP
    | exact lawful_readU8
    | exact lawful_readU16
    | exact lawful_readU32
    | apply lawful_readBytes
    | apply lawful_ppure
    | apply lawful_pfail
    | apply lawful_ppanik
    | split
    | intro x

theorem lawful_line_number_table_entry_parse : Lawful LineNumberTableEntry.parse := by
  unfold LineNumberTableEntry.parse
  repeat' first
    | apply lawful_pbind
    | apply lawful_ite
    | apply lawful_replicateP
    | exact lawful_readU8
    | exact lawful_readU16
    | exact lawful_readU32
    | apply lawful_readBytes
    | apply lawful_ppure
    | apply lawful_pfail
    | apply lawful_ppanik
    | split
    | intro x

theorem lawful_local_variable_table_entry_parse : Lawful LocalVariableTableEntry.parse := by
  unfold LocalVariableTableEntry.parse
  repeat' first
    | apply lawful_pbind
    | apply lawful_ite
    | apply lawful_replicateP
    | exact lawful_readU8
    | exact lawful_readU16
    | exact lawful_readU32
    | apply lawful_readBytes
    | apply lawful_ppure
    | apply lawful_pfail
    | apply lawful_ppanik
    | split
    | intro x

theorem lawful_local_variable_type_table_entry_parse :
    Lawful LocalVariableTypeTableEntry.parse := by
  unfold LocalVariableTypeTableEntry.parse
  repeat' first
    | apply lawful_pbind
    | apply lawful_ite
    | apply lawful_replicateP
    | exact lawful_readU8
    | exact lawful_readU16
    | exact lawful_readU32
    | apply lawful_readBytes
    | apply lawful_ppure
    | apply lawful_pfail
    | apply lawful_ppanik
    | split
    | intro x

theorem lawful_inner_class_parse : Lawful InnerClass.parse := by
  unfold InnerClass.parse
  repeat' first
    | apply lawful_pbind
    | apply lawful_ite
    | apply lawful_replicateP
    | exact lawful_readU8
    | exact lawful_readU16
    | exact lawful_readU32
    | apply lawful_readBytes
    | apply lawful_ppure
    | apply lawful_pfail
    | apply lawful_ppanik
    | split
    | intro x

theorem lawful_local_var_target_table_entry_parse : Lawful LocalVarTargetTableEntry.parse := by
  unfold LocalVarTargetTableEntry.parse
  repeat' first
    | apply lawful_pbind
    | apply lawful_ite
    | apply lawful_replicateP
    | exact lawful_readU8
    | exact lawful_readU16
    | exact lawful_readU32
    | apply lawful_readBytes
    | apply lawful_ppure
    | apply lawful_pfail
    | apply lawful_ppanik
    | split
    | intro x

theorem lawful_path_parse : Lawful Path.parse := by
  unfold Path.parse
  repeat' first
    | apply lawful_pbind
    | apply lawful_ite
    | apply lawful_replicateP
    | exact lawful_readU8
    | exact lawful_readU16
    | exact lawful_readU32
    | apply lawful_readBytes
    | apply lawful_ppure
    | apply lawful_pfail
    | apply lawful_ppanik
    | split
    | intro x

theorem lawful_type_path_parse : Lawful TypePath.parse := by
  unfold TypePath.parse
  repeat' first
    | exact lawful_path_parse
    | apply lawful_pbind
    | apply lawful_ite
    | apply lawful_replicateP
    | exact lawful_readU8
    | exact lawful_readU16
    | exact lawful_readU32
    | apply lawful_readBytes
    | apply lawful_ppure
    | apply lawful_pfail
    | apply lawful_ppanik
    | split
    | intro x

theorem lawful_bootstrap_method_parse : Lawful BootstrapMethod.parse := by
  unfold BootstrapMethod.parse
  repeat' first
    | apply lawful_pbind
    | apply lawful_ite
    | apply lawful_replicateP
    | exact lawful_readU8
    | exact lawful_readU16
    | exact lawful_readU32
    | apply lawful_readBytes
    | apply lawful_ppure
    | apply lawful_pfail
    | apply lawful_ppanik
    | split
    | intro x

theorem lawful_method_parameter_parse : Lawful MethodParameter.parse := by
  unfold MethodParameter.parse
  repeat' first
    | apply lawful_pbind
    | apply lawful_ite
    | apply lawful_replicateP
    | exact lawful_readU8
    | exact lawful_readU16
    | exact lawful_readU32
    | apply lawful_readBytes
    | apply lawful_ppure
    | apply lawful_pfail
    | apply lawful_ppanik
    | split
    | intro x

theorem lawful_module_requires_parse : Lawful ModuleRequires.parse := by
  unfold ModuleRequires.parse
  repeat' first
    | apply lawful_pbind
    | apply lawful_ite
    | apply lawful_replicateP
    | exact lawful_readU8
    | exact lawful_readU16
    | exact lawful_readU32
    | apply lawful_readBytes
    | apply lawful_ppure
    | apply lawful_pfail
    | apply lawful_ppanik
    | split
    | intro x

theorem lawful_module_exports_parse : Lawful ModuleExports.parse := by
  unfold ModuleExports.parse
  repeat' first
    | apply lawful_pbind
    | apply lawful_ite
    | apply lawful_replicateP
    | exact lawful_readU8
    | exact lawful_readU16
    | exact lawful_readU32
    | apply lawful_readBytes
    | apply lawful_ppure
    | apply lawful_pfail
    | apply lawful_ppanik
    | split
    | intro x

theorem lawful_module_opens_parse : Lawful ModuleOpens.parse := by
  unfold ModuleOpens.parse
  repeat' first
    | apply lawful_pbind
    | apply lawful_ite
    | apply lawful_replicateP
    | exact lawful_readU8
    | exact lawful_readU16
    | exact lawful_readU32
    | apply lawful_readBytes
    | apply lawful_ppure
    | apply lawful_pfail
    | apply lawful_ppanik
    | split
    | intro x

theorem lawful_module_provides_parse : Lawful ModuleProvides.parse := by
  unfold ModuleProvides.parse
  repeat' first
    | apply lawful_pbind
    | apply lawful_ite
    | apply lawful_replicateP
    | exact lawful_readU8
    | exact lawful_readU16
    | exact lawful_readU32
    | apply lawful_readBytes
    | apply lawful_ppure
    | apply lawful_pfail
    | apply lawful_ppanik
    | split
    | intro x

theorem lawful_vti_parse : Lawful VerificationTypeInfo.parse := by
  unfold VerificationTypeInfo.parse
  repeat' first
    | apply lawful_pbind
    | apply lawful_ite
    | apply lawful_replicateP
    | exact lawful_readU8
    | exact lawful_readU16
    | exact lawful_readU32
    | apply lawful_readBytes
    | apply lawful_ppure
    | apply lawful_pfail
    | apply lawful_ppanik
    | split
    | intro x

set_option maxRecDepth 4000 in
theorem lawful_smf_parse : Lawful StackMapFrame.parse := by
  unfold StackMapFrame.parse
  repeat' first
    | exact lawful_vti_parse
    | apply lawful_pbind
    | apply lawful_ite
    | apply lawful_replicateP
    | exact lawful_readU8
    | exact lawful_readU16
    | exact lawful_readU32
    | apply lawful_readBytes
    | apply lawful_ppure
    | apply lawful_pfail
    | apply lawful_ppanik
    | split
    | intro x

theorem lawful_annot_cluster (fuel : Nat) :
    Lawful (Annot.parse fuel) ∧ Lawful (ElementValuePair.parse fuel) ∧
      Lawful (ElementValue.parse fuel) := by
  induction fuel with
  | zero =>
    refine ⟨?_, ?_, ?_⟩ <;>
      simp only [Annot.parse, ElementValuePair.parse, ElementValue.parse] <;>
      exact lawful_ppanik
  | succ fuel ih =>
    refine ⟨?_, ?_, ?_⟩
    · simp only [Annot.parse]
      repeat' first
        | exact ih.1
        | exact ih.2.1
        | exact ih.2.2
        | apply lawful_pbind
        | apply lawful_ite
        | apply lawful_replicateP
        | exact lawful_readU8
        | exact lawful_readU16
        | exact lawful_readU32
        | apply lawful_readBytes
        | apply lawful_ppure
        | apply lawful_pfail
        | apply lawful_ppanik
        | split
        | intro x
    · simp only [ElementValuePair.parse]
      repeat' first
        | exact ih.1
        | exact ih.2.1
        | exact ih.2.2
        | apply lawful_pbind
        | apply lawful_ite
        | apply lawful_replicateP
        | exact lawful_readU8
        | exact lawful_readU16
        | exact lawful_readU32
        | apply lawful_readBytes
        | apply lawful_ppure
        | apply lawful_pfail
        | apply lawful_ppanik
        | split
        | intro x
    · simp only [ElementValue.parse]
      repeat' first
        | exact ih.1
        | exact ih.2.1
        | exact ih.2.2
        | apply lawful_pbind
        | apply lawful_ite
        | apply lawful_replicateP
        | exact lawful_readU8
        | exact lawful_readU16
        | exact lawful_readU32
        | apply lawful_readBytes
        | apply lawful_ppure
        | apply lawful_pfail
        | apply lawful_ppanik
        | split
        | intro x

set_option maxRecDepth 4000 in
theorem lawful_type_annot_parse (fuel : Nat) : Lawful (TypeAnnot.parse fuel) := by
  unfold TypeAnnot.parse
  repeat' first
    | exact (lawful_annot_cluster fuel).1
    | exact (lawful_annot_cluster fuel).2.1
    | exact (lawful_annot_cluster fuel).2.2
    | exact lawful_type_path_parse
    | exact lawful_local_var_target_table_entry_parse
    | apply lawful_pbind
    | apply lawful_ite
    | apply lawful_replicateP
    | exact lawful_readU8
    | exact lawful_readU16
    | exact lawful_readU32
    | apply lawful_readBytes
    | apply lawful_ppure
    | apply lawful_pfail
    | apply lawful_ppanik
    | split
    | intro x

set_option maxRecDepth 16000 in
set_option maxHeartbeats 2000000 in
theorem lawful_attr_cluster (fuel : Nat) (cp : ConstantPool) :
    Lawful (AttributeInfo.parse fuel cp) ∧ Lawful (RecordComponentInfo.parse fuel cp) := by
  induction fuel with
  | zero =>
    refine ⟨?_, ?_⟩ <;>
      simp only [AttributeInfo.parse, RecordComponentInfo.parse] <;>
      exact lawful_ppanik
  | succ fuel ih =>
    refine ⟨?_, ?_⟩
    · rw [AttributeInfo.parse]
      refine lawful_pbind lawful_readU16 fun ni => ?_
      refine lawful_pbind lawful_readU32 fun len => ?_
      by_cases hni : ni = 0
      · rw [if_pos hni]
        exact lawful_ppanik
      · rw [if_neg hni]
        rcases hcp : cp.indexUsize (ni - 1) with _ | info
        · exact lawful_ppanik
        · cases info
          all_goals try exact lawful_pfail _
          rename_i length bytes
          repeat' first
            | apply lawful_ite
            | apply lawful_pbind
            | exact lawful_readU8
            | exact lawful_readU16
            | exact lawful_readU32
            | apply lawful_readBytes
            | apply lawful_ppure
            | apply lawful_pfail
            | apply lawful_ppanik
            | exact ih.1
            | exact ih.2
            | exact (lawful_annot_cluster fuel).1
            | exact (lawful_annot_cluster fuel).2.1
            | exact (lawful_annot_cluster fuel).2.2
            | exact lawful_type_annot_parse fuel
            | exact lawful_smf_parse
            | exact lawful_vti_parse
            | exact lawful_exception_table_entry_parse
            | exact lawful_line_number_table_entry_parse
            | exact lawful_local_variable_table_entry_parse
            | exact lawful_local_variable_type_table_entry_parse
            | exact lawful_inner_class_parse
            | exact lawful_bootstrap_method_parse
            | exact lawful_method_parameter_parse
            | exact lawful_module_requires_parse
            | exact lawful_module_exports_parse
            | exact lawful_module_opens_parse
            | exact lawful_module_provides_parse
            | apply lawful_replicateP
            | intro x
    · simp only [RecordComponentInfo.parse]
      repeat' first
        | exact ih.1
        | apply lawful_pbind
        | apply lawful_replicateP
        | exact lawful_readU16
        | apply lawful_readBytes
        | apply lawful_ppure
        | intro x

theorem lawful_field_info_parse (fuel : Nat) (cp : ConstantPool) :
    Lawful (FieldInfo.parse fuel cp) := by
  unfold FieldInfo.parse
  repeat' first
    | exact (lawful_attr_cluster fuel cp).1
    | apply lawful_pbind
    | apply lawful_ite
    | apply lawful_replicateP
    | exact lawful_readU8
    | exact lawful_readU16
    | exact lawful_readU32
    | apply lawful_readBytes
    | apply lawful_ppure
    | apply lawful_pfail
    | apply lawful_ppanik
    | split
    | intro x

theorem lawful_method_info_parse (fuel : Nat) (cp : ConstantPool) :
    Lawful (MethodInfo.parse fuel cp) := by
  unfold MethodInfo.parse
  repeat' first
    | exact (lawful_attr_cluster fuel cp).1
    | apply lawful_pbind
    | apply lawful_ite
    | apply lawful_replicateP
    | exact lawful_readU8
    | exact lawful_readU16
    | exact lawful_readU32
    | apply lawful_readBytes
    | apply lawful_ppure
    | apply lawful_pfail
    | apply lawful_ppanik
    | split
    | intro x

set_option maxRecDepth 4000 in
theorem lawful_class_file_parse (fuel : Nat) : Lawful (ClassFile.parse fuel) := by
  unfold ClassFile.parse
  repeat' first
    | exact lawful_cp_parse
    | apply lawful_field_info_parse
    | apply lawful_method_info_parse
    | exact (lawful_attr_cluster fuel _).1
    | apply lawful_pbind
    | apply lawful_ite
    | apply lawful_replicateP
    | exact lawful_readU8
    | exact lawful_readU16
    | exact lawful_readU32
    | apply lawful_readBytes
    | apply lawful_ppure
    | apply lawful_pfail
    | apply lawful_ppanik
    | split
    | intro x

/-!  Forward-evaluation helpers for concrete streams with symbolic tails. -/

theorem readBytes_exact {c : List Nat} {n : Nat} (h : c.length = n) (t : List Nat) :
    readBytes n (c ++ t) = .ok c t := by
  unfold readBytes
  rw [if_pos (by simp [← h]), List.take_left' h, List.drop_left' h]

theorem readU8_cons (b : Nat) (s : List Nat) : readU8 (b :: s) = .ok b s := by
  have h : readBytes 1 (b :: s) = .ok [b] s := readBytes_exact (c := [b]) rfl s
  unfold readU8
  rw [pbind_apply_ok h]
  simp [ppure, beVal]

theorem readU16_cons (a b : Nat) (s : List Nat) :
    readU16 (a :: b :: s) = .ok (a * 256 + b) s := by
  have h : readBytes 2 (a :: b :: s) = .ok [a, b] s := readBytes_exact (c := [a, b]) rfl s
  unfold readU16
  rw [pbind_apply_ok h]
  simp [ppure, beVal]

theorem readU32_cons (a b c d : Nat) (s : List Nat) :
    readU32 (a :: b :: c :: d :: s) = .ok (((a * 256 + b) * 256 + c) * 256 + d) s := by
  have h : readBytes 4 (a :: b :: c :: d :: s) = .ok [a, b, c, d] s :=
    readBytes_exact (c := [a, b, c, d]) rfl s
  unfold readU32
  rw [pbind_apply_ok h]
  simp [ppure, beVal]

theorem readU16_ok {s : List Nat} {v : Nat} {r : List Nat} (h : readU16 s = .ok v r) :
    2 ≤ s.length ∧ v = beVal (s.take 2) ∧ r = s.drop 2 := by
  obtain ⟨bs, m, h1, h2⟩ := pbind_ok h
  obtain ⟨hle, rfl, rfl⟩ := readBytes_ok h1
  obtain ⟨rfl, rfl⟩ := ppure_ok h2
  exact ⟨hle, rfl, rfl⟩

theorem readU32_ok {s : List Nat} {v : Nat} {r : List Nat} (h : readU32 s = .ok v r) :
    4 ≤ s.length ∧ v = beVal (s.take 4) ∧ r = s.drop 4 := by
  obtain ⟨bs, m, h1, h2⟩ := pbind_ok h
  obtain ⟨hle, rfl, rfl⟩ := readBytes_ok h1
  obtain ⟨rfl, rfl⟩ := ppure_ok h2
  exact ⟨hle, rfl, rfl⟩

/-!  Claim theorems. -/

/-- C1: the claim says an unrecognized attribute name makes
`AttributeInfo::parse` read and discard exactly `attribute_length` bytes and
return successfully with the attribute omitted.  The code instead reads the
`attribute_length` bytes and then aborts in `todo!("must be ignored
silently")`: with the full payload available the parse panics (first
conjunct); truncating the payload shows the skip-read does happen before the
panic (second conjunct). -/
theorem c1_unknown_attribute_panics :
    AttributeInfo.parse 8 cpFoo [0, 1, 0, 0, 0, 2, 9, 9] = .panik ∧
    AttributeInfo.parse 8 cpFoo [0, 1, 0, 0, 0, 2, 9] = .err .UnexpectedEOF :=
  ⟨rfl, rfl⟩

/-- C2: the frame-type byte ranges select the variants exactly as the claim
maps them (0–63 Same, 64–127 SameLocals1StackItem, 247 its extended form,
248–250 Chop, 251 SameExtended, 252–254 Append with `frame_type - 251`
trailing locals, 255 Full) — but for every byte in the unassigned range
128–246 the claim demands a `ClassFileParseError` while the code's catch-all
arm is `_ => panic!()`: the parse aborts instead of returning a decode
error. -/
theorem c2_frame_type_dispatch (b : Nat) (rest : List Nat) :
    (b ≤ 63 → StackMapFrame.parse (b :: rest) = .ok (.Same b) rest) ∧
    (64 ≤ b → b ≤ 127 → StackMapFrame.parse (b :: rest) =
        StackMapFrame.parse_same_locals_1_item_stack b rest) ∧
    (b = 247 → StackMapFrame.parse (b :: rest) =
        StackMapFrame.parse_same_locals_1_stack_item_frame_extended b rest) ∧
    (248 ≤ b → b ≤ 250 → StackMapFrame.parse (b :: rest) =
        StackMapFrame.parse_chop_frame b rest) ∧
    (b = 251 → StackMapFrame.parse (b :: rest) =
        StackMapFrame.parse_same_frame_extended b rest) ∧
    (252 ≤ b → b ≤ 254 → StackMapFrame.parse (b :: rest) =
        StackMapFrame.parse_append_frame b rest) ∧
    (b = 255 → StackMapFrame.parse (b :: rest) =
        StackMapFrame.parse_full_frame b rest) ∧
    (128 ≤ b → b ≤ 246 → StackMapFrame.parse (b :: rest) = .panik) := by
  have hstep : ∀ f : Nat → Parser StackMapFrame,
      pbind readU8 f (b :: rest) = f b rest :=
    fun f => pbind_apply_ok (readU8_cons b rest)
  refine ⟨?_, ?_, ?_, ?_, ?_, ?_, ?_, ?_⟩
  · intro h
    unfold StackMapFrame.parse
    rw [hstep, if_pos h]
    rfl
  · intro h1 h2
    unfold StackMapFrame.parse
    rw [hstep, if_neg (by omega), if_pos h2]
  · intro h
    unfold StackMapFrame.parse
    rw [hstep, if_neg (by omega), if_neg (by omega), if_pos h]
  · intro h1 h2
    unfold StackMapFrame.parse
    rw [hstep, if_neg (by omega), if_neg (by omega), if_neg (by omega),
      if_pos (by omega)]
  · intro h
    unfold StackMapFrame.parse
    rw [hstep, if_neg (by omega), if_neg (by omega), if_neg (by omega),
      if_neg (by omega), if_pos h]
  · intro h1 h2
    unfold StackMapFrame.parse
    rw [hstep, if_neg (by omega), if_neg (by omega), if_neg (by omega),
      if_neg (by omega), if_neg (by omega), if_pos (by omega)]
  · intro h
    unfold StackMapFrame.parse
    rw [hstep, if_neg (by omega), if_neg (by omega), if_neg (by omega),
      if_neg (by omega), if_neg (by omega), if_neg (by omega), if_pos h]
  · intro h1 h2
    unfold StackMapFrame.parse
    rw [hstep, if_neg (by omega), if_neg (by omega), if_neg (by omega),
      if_neg (by omega), if_neg (by omega), if_neg (by omega), if_neg (by omega)]
    rfl

/-- Witness for C2's theorem: frame type 0 decodes as `Same 0`, frame type
128 aborts. -/
theorem c2_frame_type_dispatch_witness :
    StackMapFrame.parse [0] = .ok (.Same 0) [] ∧
    StackMapFrame.parse [128] = .panik :=
  ⟨(c2_frame_type_dispatch 0 []).1 (by decide),
    (c2_frame_type_dispatch 128 []).2.2.2.2.2.2.2 (by decide) (by decide)⟩

/-- C6: `iadd` pops the two `Integer` operands from the current frame's
operand stack and pushes their two's-complement wrapping sum, `imul` their
wrapping product, leaving every other part of the thread state unchanged
(`a` is the value pushed first, `b` the top of stack). -/
theorem c6_iadd_imul_wraparound (pc : Nat) (frames : List Frame)
    (locals rest : List NativeValue) (cp : ConstantPool) (a b : Int)
    (_ha1 : -2147483648 ≤ a) (_ha2 : a ≤ 2147483647)
    (_hb1 : -2147483648 ≤ b) (_hb2 : b ≤ 2147483647) :
    Thread.iadd (Thread.mk pc (Stack.mk (Frame.mk locals
        (OperandStack.mk (.Integer b :: .Integer a :: rest)) cp :: frames))) =
      some (Thread.mk pc (Stack.mk (Frame.mk locals
        (OperandStack.mk (.Integer (wrap32 (a + b)) :: rest)) cp :: frames))) ∧
    Thread.imul (Thread.mk pc (Stack.mk (Frame.mk locals
        (OperandStack.mk (.Integer b :: .Integer a :: rest)) cp :: frames))) =
      some (Thread.mk pc (Stack.mk (Frame.mk locals
        (OperandStack.mk (.Integer (wrap32 (a * b)) :: rest)) cp :: frames))) :=
  ⟨rfl, rfl⟩

/-- Witness for C6: `iadd(2147483647, 1) = -2147483648` and
`imul(1763, 2487369) = 90264251`. -/
theorem c6_iadd_imul_wraparound_witness :
    Thread.iadd (Thread.mk 0 (Stack.mk [Frame.mk []
        (OperandStack.mk [.Integer 1, .Integer 2147483647]) (ConstantPool.mk [])])) =
      some (Thread.mk 0 (Stack.mk [Frame.mk []
        (OperandStack.mk [.Integer (-2147483648)]) (ConstantPool.mk [])])) ∧
    Thread.imul (Thread.mk 0 (Stack.mk [Frame.mk []
        (OperandStack.mk [.Integer 2487369, .Integer 1763]) (ConstantPool.mk [])])) =
      some (Thread.mk 0 (Stack.mk [Frame.mk []
        (OperandStack.mk [.Integer 90264251]) (ConstantPool.mk [])])) := by
  constructor
  · have h := (c6_iadd_imul_wraparound 0 [] [] [] (ConstantPool.mk [])
      2147483647 1 (by decide) (by decide) (by decide) (by decide)).1
    rw [show wrap32 (2147483647 + 1) = -2147483648 from by decide] at h
    exact h
  · have h := (c6_iadd_imul_wraparound 0 [] [] [] (ConstantPool.mk [])
      1763 2487369 (by decide) (by decide) (by decide) (by decide)).2
    rw [show wrap32 (1763 * 2487369) = 90264251 from by decide] at h
    exact h

/-- C7: for an `Integer` on top of the current frame's operand stack, `i2b`
pushes the low 8 bits sign-extended as a `Byte`, `i2c` the low 16 bits
unsigned as a `Char`, `i2s` the low 16 bits sign-extended as a `Short`, and
`i2l` the unchanged value as a `Long`; nothing else changes. -/
theorem c7_conversions (pc : Nat) (frames : List Frame)
    (locals rest : List NativeValue) (cp : ConstantPool) (v : Int)
    (_h1 : -2147483648 ≤ v) (_h2 : v ≤ 2147483647) :
    Thread.i2b (Thread.mk pc (Stack.mk (Frame.mk locals
        (OperandStack.mk (.Integer v :: rest)) cp :: frames))) =
      some (Thread.mk pc (Stack.mk (Frame.mk locals
        (OperandStack.mk (.Byte (asI8 v) :: rest)) cp :: frames))) ∧
    Thread.i2c (Thread.mk pc (Stack.mk (Frame.mk locals
        (OperandStack.mk (.Integer v :: rest)) cp :: frames))) =
      some (Thread.mk pc (Stack.mk (Frame.mk locals
        (OperandStack.mk (.Char (asU16 v) :: rest)) cp :: frames))) ∧
    Thread.i2s (Thread.mk pc (Stack.mk (Frame.mk locals
        (OperandStack.mk (.Integer v :: rest)) cp :: frames))) =
      some (Thread.mk pc (Stack.mk (Frame.mk locals
        (OperandStack.mk (.Short (asI16 v) :: rest)) cp :: frames))) ∧
    Thread.i2l (Thread.mk pc (Stack.mk (Frame.mk locals
        (OperandStack.mk (.Integer v :: rest)) cp :: frames))) =
      some (Thread.mk pc (Stack.mk (Frame.mk locals
        (OperandStack.mk (.Long v :: rest)) cp :: frames))) :=
  ⟨rfl, rfl, rfl, rfl⟩

/-- Witness for C7: `i2b(250) = -6`, `i2c(70000) = 4464`,
`i2s(40000) = -25536`, `i2l(17) = 17`. -/
theorem c7_conversions_witness :
    Thread.i2b (Thread.mk 0 (Stack.mk [Frame.mk []
        (OperandStack.mk [.Integer 250]) (ConstantPool.mk [])])) =
      some (Thread.mk 0 (Stack.mk [Frame.mk []
        (OperandStack.mk [.Byte (-6)]) (ConstantPool.mk [])])) ∧
    Thread.i2c (Thread.mk 0 (Stack.mk [Frame.mk []
        (OperandStack.mk [.Integer 70000]) (ConstantPool.mk [])])) =
      some (Thread.mk 0 (Stack.mk [Frame.mk []
        (OperandStack.mk [.Char 4464]) (ConstantPool.mk [])])) ∧
    Thread.i2s (Thread.mk 0 (Stack.mk [Frame.mk []
        (OperandStack.mk [.Integer 40000]) (ConstantPool.mk [])])) =
      some (Thread.mk 0 (Stack.mk [Frame.mk []
        (OperandStack.mk [.Short (-25536)]) (ConstantPool.mk [])])) ∧
    Thread.i2l (Thread.mk 0 (Stack.mk [Frame.mk []
        (OperandStack.mk [.Integer 17]) (ConstantPool.mk [])])) =
      some (Thread.mk 0 (Stack.mk [Frame.mk []
        (OperandStack.mk [.Long 17]) (ConstantPool.mk [])])) := by
  refine ⟨?_, ?_, ?_, ?_⟩
  · have h := (c7_conversions 0 [] [] [] (ConstantPool.mk []) 250
      (by decide) (by decide)).1
    rw [show asI8 250 = -6 from by decide] at h
    exact h
  · have h := (c7_conversions 0 [] [] [] (ConstantPool.mk []) 70000
      (by decide) (by decide)).2.1
    rw [show asU16 70000 = 4464 from by decide] at h
    exact h
  · have h := (c7_conversions 0 [] [] [] (ConstantPool.mk []) 40000
      (by decide) (by decide)).2.2.1
    rw [show asI16 40000 = -25536 from by decide] at h
    exact h
  · exact (c7_conversions 0 [] [] [] (ConstantPool.mk []) 17
      (by decide) (by decide)).2.2.2

/-- C8: `a_const_null` pushes exactly `Reference(0)` onto the current frame's
operand stack, changing nothing else; `check_cast` with the null reference on
top returns the thread completely unchanged. -/
theorem c8_aconst_null_and_null_checkcast (pc : Nat) (frames : List Frame)
    (locals rest : List NativeValue) (cp : ConstantPool) (idx : Nat) :
    Thread.a_const_null (Thread.mk pc (Stack.mk (Frame.mk locals
        (OperandStack.mk rest) cp :: frames))) =
      some (Thread.mk pc (Stack.mk (Frame.mk locals
        (OperandStack.mk (.Reference 0 :: rest)) cp :: frames))) ∧
    Thread.check_cast (Thread.mk pc (Stack.mk (Frame.mk locals
        (OperandStack.mk (.Reference 0 :: rest)) cp :: frames))) idx =
      some (Thread.mk pc (Stack.mk (Frame.mk locals
        (OperandStack.mk (.Reference 0 :: rest)) cp :: frames))) :=
  ⟨rfl, rfl⟩

/-- C9: `dup` on any nonempty operand stack pushes an exact copy of the top
value `v` (whatever its `NativeValue` variant), leaving the entries below and
the rest of the thread unchanged. -/
theorem c9_dup_exact_copy (pc : Nat) (frames : List Frame)
    (locals rest : List NativeValue) (cp : ConstantPool) (v : NativeValue) :
    Thread.dup (Thread.mk pc (Stack.mk (Frame.mk locals
        (OperandStack.mk (v :: rest)) cp :: frames))) =
      some (Thread.mk pc (Stack.mk (Frame.mk locals
        (OperandStack.mk (v :: v :: rest)) cp :: frames))) :=
  rfl

/-- C3: the claim says every recognized attribute consumes exactly
`attribute_length` payload bytes after the 6-byte name/length header.  The
`MethodParameters` (and `Module`) branches re-read a second, spurious 6-byte
header before the payload: a well-formed `MethodParameters` attribute of
payload length 1 fails with `UnexpectedEOF` (first conjunct), and with 6
extra trailing bytes the parse succeeds but has consumed all 13 bytes — 6
past the declared payload — recording the spurious header values
(name index 0, length 0x02000000) in the result (second conjunct). -/
theorem c3_method_parameters_misaligned :
    AttributeInfo.parse 8 cpMP [0, 1, 0, 0, 0, 1, 0] = .err .UnexpectedEOF ∧
    AttributeInfo.parse 8 cpMP [0, 1, 0, 0, 0, 1, 0, 0, 2, 0, 0, 0, 0] =
      .ok (.MethodParameters 0 33554432 []) [] :=
  ⟨rfl, rfl⟩

/-- C4: if `ClassFile::parse` succeeds on a stream, then on every proper
prefix of the consumed bytes (truncation at any byte boundary before the
logical end) it returns exactly `UnexpectedEOF` — no panic, no success. -/
theorem c4_truncation_eof (fuel : Nat) (s p : List Nat) (cf : ClassFile)
    (r : List Nat) (hok : ClassFile.parse fuel s = .ok cf r) (hpre : p <+: s)
    (hlen : p.length < s.length - r.length) :
    ClassFile.parse fuel p = .err .UnexpectedEOF := by
  obtain ⟨c, hs, ext, tr⟩ := lawful_class_file_parse fuel s cf r hok
  subst hs
  have hlc : p.length < c.length := by
    simp only [List.length_append] at hlen
    omega
  have hc : p <+: c :=
    List.prefix_of_prefix_length_le hpre (List.prefix_append c r) (Nat.le_of_lt hlc)
  exact tr p hc hlc

/-- Witness for C4: the minimal 27-byte class file parses, and its 26-byte
prefix yields `UnexpectedEOF`. -/
theorem c4_truncation_eof_witness :
    ClassFile.parse 32 streamMinimal = .ok cfMinimal [] ∧
    ClassFile.parse 32 (streamMinimal.take 26) = .err .UnexpectedEOF := by
  have hok : ClassFile.parse 32 streamMinimal = .ok cfMinimal [] := by rfl
  refine ⟨hok, ?_⟩
  exact c4_truncation_eof 32 streamMinimal (streamMinimal.take 26) cfMinimal [] hok
    ⟨streamMinimal.drop 26, List.take_append_drop 26 streamMinimal⟩ (by decide)

/-- C5 counterexample: the claim says the decoder parses exactly N − 1
constant-pool entries for EVERY value of the 2-byte count N and then reads
the access flags.  For N = 0, `constant_pool_count - 1` underflows and the
parse aborts (neither a decoded value nor a typed parse error) on this
concrete stream: a valid magic and version followed by count 0. -/
theorem c5_pool_count_zero_counterexample :
    ClassFile.parse 32 [0xCA, 0xFE, 0xBA, 0xBE, 0, 0, 0, 0, 0, 0] = .panik :=
  rfl

/-- C5 (amended): whenever `ClassFile::parse` succeeds, the decoded constant
pool holds exactly N − 1 entries where N is the big-endian u16 at byte
offset 8 of the stream (so N ≥ 1; N = 0 panics and never succeeds); and a
tag byte outside the 17 defined values makes `ConstantPoolInfo::parse` fail
immediately with `InvalidConstantPoolInfoTag`, whatever bytes follow. -/
theorem c5_pool_count_amended :
    (∀ fuel s cf r, ClassFile.parse fuel s = .ok cf r →
        cf.cp_info.items.length + 1 = beVal ((s.drop 8).take 2)) ∧
    (∀ tag rest, tag ∉ cpTags →
        ConstantPoolInfo.parse (tag :: rest) = .err .InvalidConstantPoolInfoTag) := by
  constructor
  · intro fuel s cf r hok
    unfold ClassFile.parse at hok
    obtain ⟨magic, s1, h1, hok⟩ := pbind_ok hok
    obtain ⟨-, -, hs1⟩ := readU32_ok h1
    by_cases hm : magic = 0xCAFEBABE
    · rw [if_neg (by simp [hm])] at hok
      obtain ⟨minor, s2, h2, hok⟩ := pbind_ok hok
      obtain ⟨-, -, hs2⟩ := readU16_ok h2
      obtain ⟨major, s3, h3, hok⟩ := pbind_ok hok
      obtain ⟨-, -, hs3⟩ := readU16_ok h3
      obtain ⟨cnt, s4, h4, hok⟩ := pbind_ok hok
      obtain ⟨-, hcnt, -⟩ := readU16_ok h4
      by_cases hz : cnt = 0
      · rw [if_pos hz] at hok
        cases hok
      · rw [if_neg hz] at hok
        obtain ⟨items, s5, h5, hok⟩ := pbind_ok hok
        have hil := replicateP_ok_length h5
        obtain ⟨af, s6, -, hok⟩ := pbind_ok hok
        obtain ⟨tc, s7, -, hok⟩ := pbind_ok hok
        obtain ⟨sc, s8, -, hok⟩ := pbind_ok hok
        obtain ⟨ic, s9, -, hok⟩ := pbind_ok hok
        obtain ⟨ifaces, s10, -, hok⟩ := pbind_ok hok
        obtain ⟨fc, s11, -, hok⟩ := pbind_ok hok
        obtain ⟨flds, s12, -, hok⟩ := pbind_ok hok
        obtain ⟨mc, s13, -, hok⟩ := pbind_ok hok
        obtain ⟨mths, s14, -, hok⟩ := pbind_ok hok
        obtain ⟨ac, s15, -, hok⟩ := pbind_ok hok
        obtain ⟨attrs, s16, -, hok⟩ := pbind_ok hok
        obtain ⟨rfl, -⟩ := ppure_ok hok
        subst hs1 hs2 hs3
        simp only [List.drop_drop] at hcnt
        show items.length + 1 = beVal ((s.drop 8).take 2)
        rw [hil, ← hcnt]
        omega
    · rw [if_pos hm] at hok
      cases hok
  · intro tag rest h
    unfold ConstantPoolInfo.parse
    rw [pbind_apply_ok (readU8_cons tag rest)]
    simp only [cpTags, List.mem_cons, List.not_mem_nil, or_false, not_or] at h
    obtain ⟨n1, n3, n4, n5, n6, n7, n8, n9, n10, n11, n12, n15, n16, n17, n18, n19, n20⟩ := h
    rw [if_neg n1, if_neg n3, if_neg n4, if_neg n5, if_neg n6, if_neg n7, if_neg n8,
      if_neg n9, if_neg n10, if_neg n11, if_neg n12, if_neg n15, if_neg n16, if_neg n17,
      if_neg n18, if_neg n19, if_neg n20]
    rfl

/-- Witness for C5's amended theorem: the minimal stream has pool count 2 and
one stored entry, and the unassigned tag byte 2 is rejected. -/
theorem c5_pool_count_amended_witness :
    ClassFile.parse 32 streamMinimal = .ok cfMinimal [] ∧
    cfMinimal.cp_info.items.length + 1 = beVal ((streamMinimal.drop 8).take 2) ∧
    2 ∉ cpTags ∧
    ConstantPoolInfo.parse [2] = .err .InvalidConstantPoolInfoTag := by
  have hok : ClassFile.parse 32 streamMinimal = .ok cfMinimal [] := by rfl
  exact ⟨hok, c5_pool_count_amended.1 32 streamMinimal cfMinimal [] hok,
    by decide, c5_pool_count_amended.2 2 [] (by decide)⟩

/-- C10: the `Index` impls of `ConstantPool` (for `usize`, `u16` and `i32`)
are 0-based over the stored entries and partial — any index at or past the
number of stored entries aborts (`none`; there is no error-returning
variant) — and an attribute whose `attribute_name_index` is 0 makes
`AttributeInfo::parse` abort (underflow of `attribute_name_index - 1`
followed by out-of-bounds indexing) rather than return a typed error. -/
theorem c10_index_impls :
    (∀ (items : List ConstantPoolInfo) (i : Nat), items.length ≤ i →
        (ConstantPool.mk items).indexUsize i = none) ∧
    (∀ (items : List ConstantPoolInfo) (i : Nat) (h : i < items.length),
        (ConstantPool.mk items).indexUsize i = some (items.get ⟨i, h⟩)) ∧
    (∀ (items : List ConstantPoolInfo) (i : Nat), items.length ≤ i →
        (ConstantPool.mk items).indexU16 i = none) ∧
    (∀ (items : List ConstantPoolInfo) (j : Int),
        items.length ≤ (j % (2 ^ 64 : Int)).toNat →
        (ConstantPool.mk items).indexI32 j = none) ∧
    (∀ fuel cp a b c d rest,
        AttributeInfo.parse fuel cp (0 :: 0 :: a :: b :: c :: d :: rest) = .panik) := by
  refine ⟨?_, ?_, ?_, ?_, ?_⟩
  · intro items i h
    exact List.get?_eq_none.mpr h
  · intro items i h
    exact List.get?_eq_get h
  · intro items i h
    exact List.get?_eq_none.mpr h
  · intro items j h
    exact List.get?_eq_none.mpr h
  · intro fuel cp a b c d rest
    cases fuel with
    | zero => rfl
    | succ fuel =>
      rw [AttributeInfo.parse]
      rw [pbind_apply_ok (readU16_cons 0 0 _)]
      rw [pbind_apply_ok (readU32_cons a b c d _)]
      rw [if_pos (by norm_num)]
      rfl

/-- Witness for C10 on a one-entry pool and a concrete zero-name-index
attribute stream. -/
theorem c10_index_impls_witness :
    (ConstantPool.mk [.ClassInfo 7]).indexUsize 1 = none ∧
    (ConstantPool.mk [.ClassInfo 7]).indexUsize 0 = some (.ClassInfo 7) ∧
    (ConstantPool.mk [.ClassInfo 7]).indexU16 1 = none ∧
    (ConstantPool.mk [.ClassInfo 7]).indexI32 1 = none ∧
    AttributeInfo.parse 8 (ConstantPool.mk []) [0, 0, 0, 0, 0, 9] = .panik := by
  refine ⟨c10_index_impls.1 [.ClassInfo 7] 1 (by decide),
    c10_index_impls.2.1 [.ClassInfo 7] 0 (by decide),
    c10_index_impls.2.2.1 [.ClassInfo 7] 1 (by decide),
    c10_index_impls.2.2.2.1 [.ClassInfo 7] 1 (by decide),
    c10_index_impls.2.2.2.2 8 (ConstantPool.mk []) 0 0 0 9 []⟩

end Rjvm
